import Mathlib

/-!
Verification of the metrics computation pipeline of `business_metrics.py`
(notebook-to-dashboard repository).

The pipeline is embedded shallowly:

* a pandas `DataFrame` of enriched sales line items becomes a `DataFrame`
  structure holding a list of `Row`s plus one presence flag per optional
  column (mirroring `'col' in df.columns` tests in the source);
* IEEE-754 doubles (numpy `float64`) become `PFloat`: exact rationals plus
  the special values `+inf`, `-inf`, `nan`.  numpy float division by zero
  returns an infinity or `nan` (with a RuntimeWarning), it does not raise;
  Python `int / int` with a zero denominator raises `ZeroDivisionError`,
  so functions that can hit that path return `Except String _`;
* pandas `groupby` enumerates group keys in ascending order;
  `sort_values(ascending=False)` is implemented by pandas `nargsort` as an
  ascending `argsort` followed by index reversal, and numpy's `argsort`
  preserves the order of equal keys at the array sizes considered here
  (insertion sort), so a descending sort is modelled as a stable ascending
  sort followed by `List.reverse`;
* `pd.Period('M')` values are represented by the pair (year, month); the
  pandas month-period subtraction `.n` equals the difference of the
  linearised month indices `year * 12 + month`.

Fields of the source output dictionaries that no verified claim constrains
(`revenue_std`, whose value is an irrational square root) are omitted; every
other computation follows the source line by line.
-/

set_option linter.unusedVariables false

/-- numpy `float64` values as they arise in the pipeline: exact rationals
plus the IEEE special values. -/
inductive PFloat where
  | fin : ℚ → PFloat
  | pinf : PFloat
  | ninf : PFloat
  | nan : PFloat
deriving DecidableEq, Repr

/-- IEEE negation. -/
def pfNeg : PFloat → PFloat
  | .fin a => .fin (-a)
  | .pinf => .ninf
  | .ninf => .pinf
  | .nan => .nan

/-- IEEE addition (`nan` propagates, `+inf + -inf = nan`). -/
def pfAdd : PFloat → PFloat → PFloat
  | .fin a, .fin b => .fin (a + b)
  | .fin _, .pinf => .pinf
  | .fin _, .ninf => .ninf
  | .pinf, .fin _ => .pinf
  | .ninf, .fin _ => .ninf
  | .pinf, .pinf => .pinf
  | .ninf, .ninf => .ninf
  | .pinf, .ninf => .nan
  | .ninf, .pinf => .nan
  | _, _ => .nan

/-- IEEE subtraction. -/
def pfSub (a b : PFloat) : PFloat := pfAdd a (pfNeg b)

/-- IEEE multiplication (`inf * 0 = nan`). -/
def pfMul : PFloat → PFloat → PFloat
  | .fin a, .fin b => .fin (a * b)
  | .fin a, .pinf => if 0 < a then .pinf else if a < 0 then .ninf else .nan
  | .fin a, .ninf => if 0 < a then .ninf else if a < 0 then .pinf else .nan
  | .pinf, .fin b => if 0 < b then .pinf else if b < 0 then .ninf else .nan
  | .ninf, .fin b => if 0 < b then .ninf else if b < 0 then .pinf else .nan
  | .pinf, .pinf => .pinf
  | .ninf, .ninf => .pinf
  | .pinf, .ninf => .ninf
  | .ninf, .pinf => .ninf
  | _, _ => .nan

/-- IEEE division: a finite numerator over zero yields a signed infinity,
`0 / 0` yields `nan` — numpy emits a RuntimeWarning but returns the value. -/
def pfDiv : PFloat → PFloat → PFloat
  | .fin a, .fin b =>
      if b = 0 then (if 0 < a then .pinf else if a < 0 then .ninf else .nan)
      else .fin (a / b)
  | .fin _, .pinf => .fin 0
  | .fin _, .ninf => .fin 0
  | .pinf, .fin b => if b < 0 then .ninf else .pinf
  | .ninf, .fin b => if b < 0 then .pinf else .ninf
  | _, _ => .nan

/-- IEEE `<` as Python evaluates it (`nan` compares false to everything). -/
def pfLt : PFloat → PFloat → Bool
  | .fin a, .fin b => decide (a < b)
  | .fin _, .pinf => true
  | .ninf, .fin _ => true
  | .ninf, .pinf => true
  | _, _ => false

/-- IEEE `≤` as Python evaluates it (`nan` compares false to everything). -/
def pfLe : PFloat → PFloat → Bool
  | .fin a, .fin b => decide (a ≤ b)
  | .fin _, .pinf => true
  | .ninf, .fin _ => true
  | .ninf, .ninf => true
  | .ninf, .pinf => true
  | .pinf, .pinf => true
  | _, _ => false

/-- IEEE equality as Python evaluates `==` (`nan == x` is false). -/
def pfBeq : PFloat → PFloat → Bool
  | .fin a, .fin b => decide (a = b)
  | .pinf, .pinf => true
  | .ninf, .ninf => true
  | _, _ => false

/-- Python `!=` (in particular `nan != x` is true). -/
def pfNe (a b : PFloat) : Bool := !(pfBeq a b)

/-- Python `max(a, b)`: keeps `a`, replaces it only when `b > a`. -/
def pmaxPy (a b : PFloat) : PFloat := if pfLt a b then b else a

/-- Python `min(a, b)`: keeps `a`, replaces it only when `b < a`. -/
def pminPy (a b : PFloat) : PFloat := if pfLt b a then b else a

/-- pandas `Series.mean()`: `nan` on an empty series. -/
def pfMean (xs : List ℚ) : PFloat :=
  if xs.length = 0 then .nan else .fin (xs.sum / (xs.length : ℚ))

/-- Round to the nearest integer, ties to even — the rounding Python's
built-in `round` uses. -/
def roundHalfEven (q : ℚ) : ℤ :=
  if q - (⌊q⌋ : ℚ) < 1/2 then ⌊q⌋
  else if 1/2 < q - (⌊q⌋ : ℚ) then ⌊q⌋ + 1
  else if ⌊q⌋ % 2 = 0 then ⌊q⌋ else ⌊q⌋ + 1

/-- Python `round(x, 1)` (idealised over exact rationals; `round` keeps the
special values unchanged). -/
def pfRound1 : PFloat → PFloat
  | .fin q => .fin ((roundHalfEven (q * 10) : ℚ) / 10)
  | x => x

/-- Rounding a rational to two decimals, for restating the spec's displayed
two-decimal figures. -/
def roundQ2 (q : ℚ) : ℚ := ((roundHalfEven (q * 100) : ℚ)) / 100

/-- Insert into a sorted list, before the first element not below `a`:
the insertion step of a stable insertion sort. -/
def insertB {α : Type} (le : α → α → Bool) (a : α) : List α → List α
  | [] => [a]
  | b :: l => if le a b then a :: b :: l else b :: insertB le a l

/-- Stable insertion sort — the behaviour of numpy's `argsort` on the tie
groups relevant here, and hence of pandas ascending `sort_values`. -/
def insSortB {α : Type} (le : α → α → Bool) : List α → List α
  | [] => []
  | a :: l => insertB le a (insSortB le l)

theorem mem_insertB {α : Type} (le : α → α → Bool) (a x : α) (l : List α) :
    x ∈ insertB le a l ↔ x = a ∨ x ∈ l := by
  induction l with
  | nil => simp [insertB]
  | cons b t ih =>
      by_cases h : le a b = true
      · simp [insertB, h]
      · simp only [insertB, h, if_neg, Bool.not_eq_true] at *
        simp [List.mem_cons, ih]
        tauto

theorem mem_insSortB {α : Type} (le : α → α → Bool) (x : α) (l : List α) :
    x ∈ insSortB le l ↔ x ∈ l := by
  induction l with
  | nil => simp [insSortB]
  | cons b t ih => simp [insSortB, mem_insertB, ih]

theorem length_insertB {α : Type} (le : α → α → Bool) (a : α) (l : List α) :
    (insertB le a l).length = l.length + 1 := by
  induction l with
  | nil => simp [insertB]
  | cons b t ih =>
      by_cases h : le a b = true
      · simp [insertB, h]
      · simp [insertB, h, ih]

theorem length_insSortB {α : Type} (le : α → α → Bool) (l : List α) :
    (insSortB le l).length = l.length := by
  induction l with
  | nil => rfl
  | cons b t ih => simp [insSortB, length_insertB, ih]

theorem pairwise_insertB {α : Type} (le : α → α → Bool)
    (htot : ∀ a b, le a b = true ∨ le b a = true)
    (htrans : ∀ a b c, le a b = true → le b c = true → le a c = true)
    (a : α) (l : List α) (hl : l.Pairwise (fun x y => le x y = true)) :
    (insertB le a l).Pairwise (fun x y => le x y = true) := by
  induction l with
  | nil => simp [insertB]
  | cons b t ih =>
      rcases List.pairwise_cons.mp hl with ⟨hb, ht⟩
      by_cases h : le a b = true
      · have heq : insertB le a (b :: t) = a :: b :: t := by simp [insertB, h]
        rw [heq]
        refine List.pairwise_cons.mpr ⟨?_, hl⟩
        intro y hy
        rcases List.mem_cons.mp hy with hy | hy
        · exact hy ▸ h
        · exact htrans a b y h (hb y hy)
      · have hba : le b a = true := (htot a b).resolve_left h
        have heq : insertB le a (b :: t) = b :: insertB le a t := by simp [insertB, h]
        rw [heq]
        refine List.pairwise_cons.mpr ⟨?_, ih ht⟩
        intro y hy
        rcases (mem_insertB le a y t).mp hy with hy | hy
        · exact hy ▸ hba
        · exact hb y hy

theorem pairwise_insSortB {α : Type} (le : α → α → Bool)
    (htot : ∀ a b, le a b = true ∨ le b a = true)
    (htrans : ∀ a b c, le a b = true → le b c = true → le a c = true)
    (l : List α) :
    (insSortB le l).Pairwise (fun x y => le x y = true) := by
  induction l with
  | nil => simp [insSortB]
  | cons b t ih => exact pairwise_insertB le htot htrans b _ ih

/-- `order_purchase_timestamp`, kept at day granularity (the pipeline only
uses its calendar components and its chronological order). -/
structure Timestamp where
  year : ℤ
  month : ℤ
  day : ℤ
deriving DecidableEq, Repr

/-- Linearisation of a timestamp that agrees with chronological order on
valid dates (month in 1..12, day in 1..31). -/
def tsIdx (t : Timestamp) : ℤ := (t.year * 12 + t.month) * 32 + t.day

/-- The linearised month index of `to_period('M')`: pandas month-period
subtraction `(p2 - p1).n` equals `monthIdx t2 - monthIdx t1`. -/
def monthIdx (t : Timestamp) : ℤ := t.year * 12 + t.month

/-- A calendar-valid timestamp. -/
def validTs (t : Timestamp) : Prop :=
  1 ≤ t.month ∧ t.month ≤ 12 ∧ 1 ≤ t.day ∧ t.day ≤ 31

instance : DecidablePred validTs := fun t => by
  unfold validTs; exact inferInstance

/-- The value held by the `period` column written by
`aggregate_by_time_period` (one constructor per supported period kind). -/
inductive PeriodVal where
  | date : ℤ → ℤ → ℤ → PeriodVal
  | week : ℤ → PeriodVal
  | month : ℤ → ℤ → PeriodVal
  | quarter : ℤ → ℤ → PeriodVal
  | year : ℤ → PeriodVal
deriving DecidableEq, Repr

/-- Days since 1970-01-01 of a civil date (Gregorian, proleptic). -/
def daysFromCivil (y m d : ℤ) : ℤ :=
  let yy := if m ≤ 2 then y - 1 else y
  let era := Int.fdiv yy 400
  let yoe := yy - era * 400
  let mp := Int.fmod (m + 9) 12
  let doy := (153 * mp + 2) / 5 + d - 1
  let doe := yoe * 365 + yoe / 4 - yoe / 100 + doy
  era * 146097 + doe - 719468

/-- Index of the pandas `W-SUN` weekly period containing a date (weeks end
on Sunday; 1970-01-01 is a Thursday, so its week ends on day 3). -/
def weekIdx (t : Timestamp) : ℤ := Int.fdiv (daysFromCivil t.year t.month t.day + 3) 7

/-- The period value `aggregate_by_time_period` writes for one row: `.date`
for `dt.date`, otherwise `dt.to_period` of the selected frequency.  Only
ever applied to the five supported period strings. -/
def toPeriodVal (period : String) (t : Timestamp) : PeriodVal :=
  if period = "day" then .date t.year t.month t.day
  else if period = "week" then .week (weekIdx t)
  else if period = "month" then .month t.year t.month
  else if period = "quarter" then .quarter t.year ((t.month - 1) / 3 + 1)
  else .year t.year

/-- One enriched sales line item (one row per order item).  Identifier
columns are represented by `ℕ`; optional columns hold `Option` values
(cell-level missingness).  Fields no embedded calculator reads
(`freight_value`, `product_id`, the derived `year`/`month`/`quarter`
columns used only by the unclaimed monthly-trends calculator) are omitted. -/
structure Row where
  order_id : ℕ
  order_item_id : ℕ
  customer_id : ℕ
  price : ℚ
  total_revenue : ℚ
  order_status : String
  order_purchase_timestamp : Timestamp
  product_category_name : Option String
  customer_state : String
  review_score : Option ℚ
  delivery_days : Option ℚ
  delivery_category : Option String
  period : Option PeriodVal
deriving DecidableEq, Repr

/-- A pandas DataFrame of sales line items: the rows plus one presence flag
per column whose presence the source tests with `'col' in df.columns`. -/
structure DataFrame where
  rows : List Row
  hasReviewScore : Bool
  hasDeliveryDays : Bool
  hasDeliveryCategory : Bool
  hasOrderStatus : Bool
  hasPeriodCol : Bool
deriving DecidableEq, Repr

/-- `df['total_revenue'].sum()`. -/
def totalRevenueOf (df : DataFrame) : ℚ := (df.rows.map Row.total_revenue).sum

/-- `df['order_id'].nunique()` — a Python `int`. -/
def totalOrdersOf (df : DataFrame) : ℕ := (df.rows.map Row.order_id).dedup.length

/-- The distinct `order_id`s in ascending order, as `groupby('order_id')`
enumerates its groups. -/
def uniqueOrderIds (df : DataFrame) : List ℕ :=
  insSortB (fun a b => decide (a ≤ b)) (df.rows.map Row.order_id).dedup

/-- `df.groupby('order_id')['total_revenue'].sum()`: per-order revenue
sums, keyed by ascending `order_id`. -/
def orderSums (df : DataFrame) : List ℚ :=
  (uniqueOrderIds df).map
    (fun oid => ((df.rows.filter (fun r => r.order_id = oid)).map Row.total_revenue).sum)

/-- pandas `Series.median()`: middle of the sorted values, mean of the two
middles for an even count, `nan` when empty. -/
def listMedian (xs : List ℚ) : PFloat :=
  let s := insSortB (fun a b => decide (a ≤ b)) xs
  if s.length = 0 then .nan
  else if s.length % 2 = 1 then .fin (s.getD (s.length / 2) 0)
  else .fin ((s.getD (s.length / 2 - 1) 0 + s.getD (s.length / 2) 0) / 2)

/-- The revenue-metrics dictionary (`calculate_revenue_metrics`).  Growth
fields are `none` when no comparison set was supplied (the keys are absent
from the Python dict).  `revenue_std` (sample standard deviation, an
irrational square root no claim constrains) is omitted. -/
structure RevenueMetrics where
  total_revenue : ℚ
  total_orders : ℕ
  total_items_sold : ℕ
  average_order_value : PFloat
  average_item_price : PFloat
  median_order_value : PFloat
  revenue_growth_rate : Option PFloat
  order_growth_rate : Option PFloat
  aov_growth_rate : Option PFloat
deriving DecidableEq, Repr

/-- Lines 30-42 of `calculate_revenue_metrics`: the metrics of one dataset,
no comparison.  The source's recursive call
`calculate_revenue_metrics(comparison_df)` computes exactly this. -/
def revenue_metrics_base (df : DataFrame) : RevenueMetrics :=
  { total_revenue := totalRevenueOf df
    total_orders := totalOrdersOf df
    total_items_sold := df.rows.length
    average_order_value := pfMean (orderSums df)
    average_item_price := pfMean (df.rows.map Row.price)
    median_order_value := listMedian (orderSums df)
    revenue_growth_rate := none
    order_growth_rate := none
    aov_growth_rate := none }

/-- `calculate_revenue_metrics(df, comparison_df)`.  With a comparison set,
`revenue_growth_rate` is a numpy float division (never raises);
`order_growth_rate` divides two Python ints, so a comparison set with zero
distinct orders raises `ZeroDivisionError`; `aov_growth_rate` is again
float arithmetic. -/
def calculate_revenue_metrics (df : DataFrame) (comparison_df : Option DataFrame) :
    Except String RevenueMetrics :=
  match comparison_df with
  | none => .ok (revenue_metrics_base df)
  | some comp =>
      let m := revenue_metrics_base df
      let c := revenue_metrics_base comp
      let revenue_growth :=
        pfDiv (.fin (m.total_revenue - c.total_revenue)) (.fin c.total_revenue)
      if c.total_orders = 0 then .error "ZeroDivisionError: division by zero"
      else
        .ok { m with
          revenue_growth_rate := some revenue_growth
          order_growth_rate :=
            some (.fin (((m.total_orders : ℚ) - (c.total_orders : ℚ)) / (c.total_orders : ℚ)))
          aov_growth_rate :=
            some (pfDiv (pfSub m.average_order_value c.average_order_value)
              c.average_order_value) }

/-- One row of the `category_performance` view of
`analyze_product_performance`. -/
structure CatRow where
  category : String
  total_revenue : ℚ
  unique_orders : ℕ
  items_sold : ℕ
  avg_price : PFloat
deriving DecidableEq, Repr

/-- The distinct product categories in ascending name order, as
`groupby('product_category_name')` enumerates them (rows with a missing
category are dropped by `groupby`). -/
def categoryKeys (df : DataFrame) : List String :=
  insSortB (fun a b => decide (a ≤ b)) (df.rows.filterMap Row.product_category_name).dedup

/-- Lines 110-117: the per-category aggregate frame, keyed ascending. -/
def category_revenue (df : DataFrame) : List CatRow :=
  (categoryKeys df).map (fun c =>
    let g := df.rows.filter (fun r => r.product_category_name = some c)
    { category := c
      total_revenue := (g.map Row.total_revenue).sum
      unique_orders := (g.map Row.order_id).dedup.length
      items_sold := g.length
      avg_price := pfMean (g.map Row.price) })

/-- pandas `sort_values('total_revenue', ascending=False)` on the category
frame: `nargsort` performs an ascending stable `argsort` and reverses the
index array, so equal-revenue rows end up in reversed key order. -/
def sortByRevenueDesc (l : List CatRow) : List CatRow :=
  (insSortB (fun a b => decide (a.total_revenue ≤ b.total_revenue)) l).reverse

/-- Lines 118-120: the `category_performance` view — the category frame
sorted by descending total revenue, first `top_n` rows. -/
def category_performance (df : DataFrame) (top_n : ℕ) : List CatRow :=
  (sortByRevenueDesc (category_revenue df)).take top_n

/-- Lines 122-125: the `market_share` view — the same descending frame with
`market_share = total_revenue / grand total` (a float division), first
`top_n` rows. -/
def market_share_view (df : DataFrame) (top_n : ℕ) : List (String × PFloat) :=
  ((sortByRevenueDesc (category_revenue df)).map
    (fun c => (c.category, pfDiv (.fin c.total_revenue) (.fin (totalRevenueOf df))))).take top_n

/-- Lines 128-131: mean items per `(order, category)` pair, per category,
descending.  `groupby(['order_id', 'product_category_name']).size()`
drops rows with a missing category. -/
def items_per_order_view (df : DataFrame) (top_n : ℕ) : List (String × PFloat) :=
  let pairs := df.rows.filterMap
    (fun r => r.product_category_name.map (fun c => (r.order_id, c)))
  let keys := insSortB
    (fun a b => decide (a.1 < b.1 ∨ (a.1 = b.1 ∧ a.2 ≤ b.2))) pairs.dedup
  let sizes := keys.map
    (fun k => (k.2, ((pairs.filter (fun p => p = k)).length : ℚ)))
  let cats := insSortB (fun a b => decide (a ≤ b)) (sizes.map Prod.fst).dedup
  let means := cats.map
    (fun c => (c, pfMean ((sizes.filter (fun s => s.1 = c)).map Prod.snd)))
  ((insSortB (fun a b => pfLe a.2 b.2) means).reverse).take top_n

/-- The result dictionary of `analyze_product_performance`. -/
structure ProductPerformance where
  category_performance : List CatRow
  market_share : List (String × PFloat)
  items_per_order : List (String × PFloat)
deriving DecidableEq, Repr

/-- `analyze_product_performance(df, top_n)`. -/
def analyze_product_performance (df : DataFrame) (top_n : ℕ) : ProductPerformance :=
  { category_performance := category_performance df top_n
    market_share := market_share_view df top_n
    items_per_order := items_per_order_view df top_n }

/-- One row of the state-level frame of `analyze_geographic_performance`. -/
structure StateRow where
  state : String
  total_revenue : ℚ
  total_orders : ℕ
  unique_customers : ℕ
  avg_item_price : PFloat
  revenue_per_customer : PFloat
deriving DecidableEq, Repr

/-- The distinct customer states in ascending order
(`groupby('customer_state')`). -/
def stateKeys (df : DataFrame) : List String :=
  insSortB (fun a b => decide (a ≤ b)) (df.rows.map Row.customer_state).dedup

/-- Lines 150-163: the per-state aggregate frame.  The source appends the
`revenue_per_customer` column (a float division of two row-local values)
after sorting; the value only depends on the row, so it is computed with
the row here. -/
def stateAgg (df : DataFrame) : List StateRow :=
  (stateKeys df).map (fun s =>
    let g := df.rows.filter (fun r => r.customer_state = s)
    let rev := (g.map Row.total_revenue).sum
    let uniq := (g.map Row.customer_id).dedup.length
    { state := s
      total_revenue := rev
      total_orders := (g.map Row.order_id).dedup.length
      unique_customers := uniq
      avg_item_price := pfMean (g.map Row.price)
      revenue_per_customer := pfDiv (.fin rev) (.fin (uniq : ℚ)) })

/-- `sort_values('total_revenue', ascending=False)` on the state frame
(same `nargsort` model as for categories). -/
def sortStatesByRevenueDesc (l : List StateRow) : List StateRow :=
  (insSortB (fun a b => decide (a.total_revenue ≤ b.total_revenue)) l).reverse

/-- The result dictionary of `analyze_geographic_performance`. -/
structure GeoPerformance where
  state_performance : List StateRow
  top_customer_states : List (String × ℕ × ℚ)
deriving DecidableEq, Repr

/-- `analyze_geographic_performance(df, top_n)`.  `nlargest(top_n,
'unique_customers')` with the default `keep='first'` is a stable
descending selection. -/
def analyze_geographic_performance (df : DataFrame) (top_n : ℕ) : GeoPerformance :=
  let sorted := sortStatesByRevenueDesc (stateAgg df)
  { state_performance := sorted.take top_n
    top_customer_states :=
      ((insSortB (fun a b => decide (b.unique_customers ≤ a.unique_customers)) sorted).take
        top_n).map (fun s => (s.state, s.unique_customers, s.total_revenue)) }

/-- One row of the `delivery_satisfaction` frame: mean review score and
distinct order count per delivery category. -/
structure DeliverySatRow where
  delivery_category : String
  review_score : PFloat
  order_id : ℕ
deriving DecidableEq, Repr

/-- The customer-experience metrics dictionary; `none` marks a key that is
absent from the Python dict. -/
structure CxMetrics where
  avg_review_score : Option PFloat
  review_score_distribution : Option (List (ℚ × ℚ))
  nps_score : Option PFloat
  avg_delivery_days : Option PFloat
  median_delivery_days : Option PFloat
  delivery_satisfaction : Option (List DeliverySatRow)
deriving DecidableEq, Repr

/-- `value_counts(normalize=True)`: relative frequency per distinct score,
most frequent first (pandas sorts by descending count). -/
def reviewDistribution (scores : List ℚ) : List (ℚ × ℚ) :=
  let pairs := scores.dedup.map
    (fun s => (s, ((scores.filter (fun x => x = s)).length : ℚ) / (scores.length : ℚ)))
  (insSortB (fun a b => decide (a.2 ≤ b.2)) pairs).reverse

/-- Lines 211-215: `delivery_data.groupby('delivery_category').agg(...)`;
the per-group `review_score` mean skips missing cells (pandas `mean`). -/
def deliverySatisfaction (delivery_data : List Row) : List DeliverySatRow :=
  let cats := insSortB (fun a b => decide (a ≤ b))
    (delivery_data.filterMap Row.delivery_category).dedup
  cats.map (fun c =>
    let g := delivery_data.filter (fun r => r.delivery_category = some c)
    { delivery_category := c
      review_score := pfMean (g.filterMap Row.review_score)
      order_id := (g.map Row.order_id).dedup.length })

/-- `analyze_customer_experience(df)`.  Each block is guarded by column
presence and by a non-empty frame after `dropna`; the
`delivery_satisfaction` aggregation names the `review_score` column
unconditionally, so that block raises `KeyError` when `delivery_days` and
`delivery_category` are present (with data) but `review_score` is not. -/
def analyze_customer_experience (df : DataFrame) : Except String CxMetrics :=
  let review_data := df.rows.filter (fun r => r.review_score.isSome)
  let scores := review_data.filterMap Row.review_score
  let hasReviews := df.hasReviewScore && decide (0 < review_data.length)
  let avg_review : Option PFloat := if hasReviews then some (pfMean scores) else none
  let dist : Option (List (ℚ × ℚ)) :=
    if hasReviews then some (reviewDistribution scores) else none
  let nps : Option PFloat :=
    if hasReviews then
      let promoters := (review_data.filter (fun r => r.review_score = some 5)).length
      let detractors :=
        (review_data.filter
          (fun r => r.review_score = some 1 ∨ r.review_score = some 2)).length
      some (.fin (((promoters : ℚ) - (detractors : ℚ)) / (review_data.length : ℚ) * 100))
    else none
  let delivery_data := df.rows.filter (fun r => r.delivery_days.isSome)
  let dvals := delivery_data.filterMap Row.delivery_days
  if df.hasDeliveryDays && decide (0 < delivery_data.length) then
    if df.hasDeliveryCategory then
      if df.hasReviewScore then
        .ok { avg_review_score := avg_review
              review_score_distribution := dist
              nps_score := nps
              avg_delivery_days := some (pfMean dvals)
              median_delivery_days := some (listMedian dvals)
              delivery_satisfaction := some (deliverySatisfaction delivery_data) }
      else .error "KeyError: review_score"
    else
      .ok { avg_review_score := avg_review
            review_score_distribution := dist
            nps_score := nps
            avg_delivery_days := some (pfMean dvals)
            median_delivery_days := some (listMedian dvals)
            delivery_satisfaction := none }
  else
    .ok { avg_review_score := avg_review
          review_score_distribution := dist
          nps_score := nps
          avg_delivery_days := none
          median_delivery_days := none
          delivery_satisfaction := none }

/-- The chronologically first timestamp of a list (`Series.min()` over
timestamps), via the linearisation `tsIdx`. -/
def minTs : List Timestamp → Option Timestamp
  | [] => none
  | t :: ts => some (ts.foldl (fun a b => if tsIdx b < tsIdx a then b else a) t)

/-- Lines 230-232: the timestamp of a customer's first purchase
(`df.groupby('customer_id')['order_purchase_timestamp'].min()`). -/
def customerFirstTs (df : DataFrame) (cid : ℕ) : Option Timestamp :=
  minTs ((df.rows.filter (fun r => r.customer_id = cid)).map Row.order_purchase_timestamp)

/-- Lines 236-241 for one row of `df_cohort`: `period_number` = order month
period minus first-purchase month period, i.e. the difference of the
linearised month indices (`attrgetter('n')` of the pandas month-period
offset).  The `none` branch is unreachable for a row of the frame (its
customer always has at least that row). -/
def periodNumber (df : DataFrame) (r : Row) : ℤ :=
  match customerFirstTs df r.customer_id with
  | some t0 => monthIdx r.order_purchase_timestamp - monthIdx t0
  | none => 0

/-- The cohort key of one row of `df_cohort`: its customer's
first-purchase month (as a linearised month index) and its period number. -/
def cohortKey (df : DataFrame) (r : Row) : ℤ × ℤ :=
  (match customerFirstTs df r.customer_id with
   | some t0 => monthIdx t0
   | none => 0, periodNumber df r)

/-- Lines 244-249: the cohort table — distinct customers per
`(first_purchase_month, period_number)` cell, month periods represented by
their linearised index.  Absent cells simply do not appear. -/
def calculate_cohort_analysis (df : DataFrame) : List ((ℤ × ℤ) × ℕ) :=
  let keyed := df.rows.map (fun r => (cohortKey df r, r.customer_id))
  let cells := insSortB
    (fun a b => decide (a.1 < b.1 ∨ (a.1 = b.1 ∧ a.2 ≤ b.2))) (keyed.map Prod.fst).dedup
  cells.map (fun k =>
    (k, ((keyed.filter (fun p => p.1 = k)).map Prod.snd).dedup.length))

/-- The health-score weights (lines 315-320). -/
def wRevenue : ℚ := 3/10
/-- Customer-experience weight. -/
def wCustomerExperience : ℚ := 1/4
/-- Operational weight. -/
def wOperational : ℚ := 1/5
/-- Fulfillment weight. -/
def wFulfillment : ℚ := 1/4

/-- `min(max(score, 0), 100)` with Python `min`/`max` semantics. -/
def clampScore (x : PFloat) : PFloat := pminPy (pmaxPy x (.fin 0)) (.fin 100)

/-- Lines 268-274: the revenue component before clamping.  The growth-rate
key exists whenever a comparison set was supplied, so the `none` fallback
of the inner match is unreachable then. -/
def revenueScoreOf (comparison_df : Option DataFrame) (rm : RevenueMetrics) : PFloat :=
  match comparison_df with
  | none => .fin 70
  | some _ =>
      match rm.revenue_growth_rate with
      | some g =>
          if pfLt (.fin 0) g then
            pfAdd (.fin 70) (pminPy (pfMul g (.fin 100)) (.fin 30))
          else
            pfAdd (.fin 70) (pmaxPy (pfMul g (.fin 100)) (.fin (-30)))
      | none => .fin 70

/-- Lines 280-285: the customer-experience component before clamping:
base 70; when `avg_review_score` is available,
`70 + ((avg - 1) / 4) * 30 - 30`. -/
def cxScoreRaw (cxm : CxMetrics) : PFloat :=
  match cxm.avg_review_score with
  | some v =>
      pfSub (pfAdd (.fin 70) (pfMul (pfDiv (pfSub v (.fin 1)) (.fin 4)) (.fin 30))) (.fin 30)
  | none => .fin 70

/-- Lines 290-301: the operational component, stepped from mean delivery
days; not clamped in the source. -/
def opsScoreOf (cxm : CxMetrics) : PFloat :=
  match cxm.avg_delivery_days with
  | some d =>
      if pfLe d (.fin 5) then .fin 90
      else if pfLe d (.fin 10) then .fin 80
      else if pfLe d (.fin 15) then .fin 70
      else .fin 50
  | none => .fin 70

/-- Lines 306-310: the fulfillment component.
`len(df[df['order_status'] == 'delivered']) / len(df)` divides two Python
ints, so an empty frame with an `order_status` column raises
`ZeroDivisionError`; without the column the score defaults to 70. -/
def fulfillmentScore (df : DataFrame) : Except String PFloat :=
  if df.hasOrderStatus then
    if df.rows.length = 0 then .error "ZeroDivisionError: division by zero"
    else
      .ok (.fin (((df.rows.filter (fun r => r.order_status = "delivered")).length : ℚ) /
        (df.rows.length : ℚ) * 100))
  else .ok (.fin 70)

/-- The health-score dictionary. -/
structure HealthMetrics where
  revenue_score : PFloat
  customer_experience_score : PFloat
  operational_score : PFloat
  fulfillment_score : PFloat
  overall_health_score : PFloat
deriving DecidableEq, Repr

/-- `calculate_business_health_score(df, comparison_df)`: the four
components (revenue and customer-experience clamped to [0, 100]), then the
weighted sum rounded to one decimal.  Sub-computation failures propagate in
source order (revenue metrics, then customer experience, then
fulfillment). -/
def calculate_business_health_score (df : DataFrame) (comparison_df : Option DataFrame) :
    Except String HealthMetrics :=
  match calculate_revenue_metrics df comparison_df with
  | .error e => .error e
  | .ok rm =>
      match analyze_customer_experience df with
      | .error e => .error e
      | .ok cxm =>
          match fulfillmentScore df with
          | .error e => .error e
          | .ok ful =>
              let revenue_score := clampScore (revenueScoreOf comparison_df rm)
              let cx_score := clampScore (cxScoreRaw cxm)
              let ops_score := opsScoreOf cxm
              let overall := pfRound1
                (pfAdd
                  (pfAdd (pfMul revenue_score (.fin wRevenue))
                    (pfMul cx_score (.fin wCustomerExperience)))
                  (pfAdd (pfMul ops_score (.fin wOperational))
                    (pfMul ful (.fin wFulfillment))))
              .ok { revenue_score := revenue_score
                    customer_experience_score := cx_score
                    operational_score := ops_score
                    fulfillment_score := ful
                    overall_health_score := overall }

/-- The five period strings `aggregate_by_time_period` recognises. -/
def validPeriods : List String := ["day", "week", "month", "quarter", "year"]

/-- The effect of line 386-395's `df['period'] = ...` on the caller's
frame: every row's `period` cell is overwritten and the column exists
afterwards. -/
def writePeriod (df : DataFrame) (period : String) : DataFrame :=
  { df with
    rows := df.rows.map
      (fun r => { r with period := some (toPeriodVal period r.order_purchase_timestamp) })
    hasPeriodCol := true }

/-- One row of the aggregate produced by `aggregate_by_time_period` with
its default metric list: revenue sum, distinct orders, distinct
customers per period. -/
structure AggRow where
  period : PeriodVal
  total_revenue : ℚ
  order_id : ℕ
  customer_id : ℕ
deriving DecidableEq, Repr

/-- A sort key for period values; the rows of one aggregation all use the
same constructor, for which this agrees with chronological order. -/
def periodSortKey : PeriodVal → ℤ
  | .date y m d => (y * 12 + m) * 32 + d
  | .week w => w
  | .month y m => y * 12 + m
  | .quarter y q => y * 4 + q
  | .year y => y

/-- `aggregate_by_time_period(df, period)` with its default metric list,
in state-passing form: the returned `DataFrame` is what the caller's frame
refers to after the call.  A recognised period string MUTATES the input
(`df['period'] = ...`); the groupby then reads the column, raising
`KeyError` when it does not exist. -/
def aggregate_by_time_period (df : DataFrame) (period : String) :
    Except String (List AggRow) × DataFrame :=
  let dfa := if period ∈ validPeriods then writePeriod df period else df
  if dfa.hasPeriodCol then
    let keyed := dfa.rows.filterMap (fun r => r.period.map (fun p => (p, r)))
    let keys := insSortB (fun a b => decide (periodSortKey a ≤ periodSortKey b))
      (keyed.map Prod.fst).dedup
    (.ok (keys.map (fun k =>
      let g := (keyed.filter (fun p => p.1 = k)).map Prod.snd
      { period := k
        total_revenue := (g.map Row.total_revenue).sum
        order_id := (g.map Row.order_id).dedup.length
        customer_id := (g.map Row.customer_id).dedup.length })), dfa)
  else (.error "KeyError: period", dfa)

/-- `calculate_revenue_metrics` contains no statement writing to either
frame: the caller's frames are unchanged after the call. -/
def calculate_revenue_metrics_dfAfter (df : DataFrame) (comparison_df : Option DataFrame) :
    DataFrame := df

/-- `analyze_product_performance` only reads `df`. -/
def analyze_product_performance_dfAfter (df : DataFrame) (top_n : ℕ) : DataFrame := df

/-- `analyze_geographic_performance` only reads `df`. -/
def analyze_geographic_performance_dfAfter (df : DataFrame) (top_n : ℕ) : DataFrame := df

/-- `analyze_customer_experience` only reads `df`. -/
def analyze_customer_experience_dfAfter (df : DataFrame) : DataFrame := df

/-- `calculate_cohort_analysis` derives new frames (`merge` returns a new
object); `df` itself is unchanged. -/
def calculate_cohort_analysis_dfAfter (df : DataFrame) : DataFrame := df

/-- `calculate_business_health_score` only reads its frames. -/
def calculate_business_health_score_dfAfter (df : DataFrame)
    (comparison_df : Option DataFrame) : DataFrame := df

/-- `compare_periods` only reads its two frames. -/
def compare_periods_dfAfter (current_df previous_df : DataFrame) :
    DataFrame × DataFrame := (current_df, previous_df)

/-- The default metric list of `compare_periods`. -/
def defaultCompareMetrics : List String :=
  ["total_revenue", "total_orders", "average_order_value"]

/-- `metric in metrics_dict` plus the lookup: the keys of the dictionary
built by `calculate_revenue_metrics` (growth keys present only with a
comparison set; `revenue_std` omitted here, see the module comment). -/
def lookupMetric (m : RevenueMetrics) : String → Option PFloat
  | "total_revenue" => some (.fin m.total_revenue)
  | "total_orders" => some (.fin (m.total_orders : ℚ))
  | "total_items_sold" => some (.fin (m.total_items_sold : ℚ))
  | "average_order_value" => some m.average_order_value
  | "average_item_price" => some m.average_item_price
  | "median_order_value" => some m.median_order_value
  | "revenue_growth_rate" => m.revenue_growth_rate
  | "order_growth_rate" => m.order_growth_rate
  | "aov_growth_rate" => m.aov_growth_rate
  | _ => none

/-- One row of the comparison frame built by `compare_periods`. -/
structure CompRow where
  metric : String
  current_period : PFloat
  previous_period : PFloat
  absolute_change : PFloat
  percent_change : PFloat
deriving DecidableEq, Repr

/-- `compare_periods(current_df, previous_df, metrics)`: per metric present
in both dictionaries, the two values, their difference, and
`(current - previous) / previous * 100`, with `np.nan` — the explicit
undefined sentinel — when the previous value equals zero (Python `!=`).
The source obtains each dictionary from `calculate_revenue_metrics` with
no comparison argument, which is exactly `revenue_metrics_base`
(`calculate_revenue_metrics_none`). -/
def compare_periods (current_df previous_df : DataFrame)
    (metrics : List String) : List CompRow :=
  let current_metrics := revenue_metrics_base current_df
  let previous_metrics := revenue_metrics_base previous_df
  metrics.filterMap (fun name =>
    match lookupMetric current_metrics name, lookupMetric previous_metrics name with
    | some current_val, some previous_val =>
        some { metric := name
               current_period := current_val
               previous_period := previous_val
               absolute_change := pfSub current_val previous_val
               percent_change :=
                 if pfNe previous_val (.fin 0) then
                   pfMul (pfDiv (pfSub current_val previous_val) previous_val) (.fin 100)
                 else .nan }
    | _, _ => none)

/-- A line item with the given order, item, customer, price, revenue and
timestamp; remaining fields at representative defaults. -/
def mkRow (oid item cid : ℕ) (price rev : ℚ) (ts : Timestamp) : Row :=
  { order_id := oid
    order_item_id := item
    customer_id := cid
    price := price
    total_revenue := rev
    order_status := "delivered"
    order_purchase_timestamp := ts
    product_category_name := none
    customer_state := "SP"
    review_score := none
    delivery_days := none
    delivery_category := none
    period := none }

/-- A frame with the required columns only (`order_status` is a required
field, so its presence flag is true). -/
def mkDf (rows : List Row) : DataFrame :=
  { rows := rows
    hasReviewScore := false
    hasDeliveryDays := false
    hasDeliveryCategory := false
    hasOrderStatus := true
    hasPeriodCol := false }

/-- The spec's §8 scenario: three orders with revenues 100, 150, 250, the
150 order split over two rows. -/
def scenarioDf : DataFrame :=
  mkDf [mkRow 1 1 1 100 100 ⟨2023, 1, 5⟩, mkRow 2 1 2 75 75 ⟨2023, 1, 6⟩,
    mkRow 2 2 2 75 75 ⟨2023, 1, 6⟩, mkRow 3 1 3 250 250 ⟨2023, 1, 7⟩]

/-- A one-row frame with revenue 100. -/
def df1 : DataFrame := mkDf [mkRow 1 1 1 100 100 ⟨2023, 1, 5⟩]

/-- A one-row comparison frame whose total revenue is zero (but with one
order, so the integer division succeeds). -/
def dfZeroRev : DataFrame := mkDf [mkRow 9 1 9 0 0 ⟨2022, 12, 1⟩]

/-- The empty frame (with the required `order_status` column, as every
RecordSet has). -/
def dfEmpty : DataFrame := mkDf []

/-- One customer (id 7) purchasing in January 2023 and again in March
2023, plus an unrelated customer. -/
def dfCohort : DataFrame :=
  mkDf [mkRow 1 1 7 100 100 ⟨2023, 1, 5⟩, mkRow 2 1 7 50 50 ⟨2023, 3, 20⟩,
    mkRow 3 1 8 80 80 ⟨2023, 2, 10⟩]

/-- A frame whose single review score is 5 (column present). -/
def dfReview5 : DataFrame :=
  { mkDf [{ mkRow 1 1 1 100 100 ⟨2023, 1, 5⟩ with review_score := some 5 }] with
    hasReviewScore := true }

/-- A frame whose single review score is 1 (column present). -/
def dfReview1 : DataFrame :=
  { mkDf [{ mkRow 1 1 1 100 100 ⟨2023, 1, 5⟩ with review_score := some 1 }] with
    hasReviewScore := true }

/-- Delivery columns present with data, review-score column absent: the
configuration on which `analyze_customer_experience` raises. -/
def dfCxBad : DataFrame :=
  { rows := [{ mkRow 1 1 1 100 100 ⟨2023, 1, 5⟩ with
      delivery_days := some 5, delivery_category := some "1-3 days" }]
    hasReviewScore := false
    hasDeliveryDays := true
    hasDeliveryCategory := true
    hasOrderStatus := true
    hasPeriodCol := false }

/-- A one-row frame for the mutation counterexample. -/
def df6 : DataFrame := mkDf [mkRow 1 1 1 100 100 ⟨2023, 1, 5⟩]

/-- Two categories with exactly equal total revenue. -/
def dfTie : DataFrame :=
  mkDf [{ mkRow 1 1 1 10 10 ⟨2023, 1, 5⟩ with product_category_name := some "a" },
    { mkRow 2 1 2 10 10 ⟨2023, 1, 6⟩ with product_category_name := some "b" }]

/-- A one-row, one-state, one-customer frame. -/
def dfGeo : DataFrame := mkDf [mkRow 1 1 1 100 100 ⟨2023, 1, 5⟩]

/-- The state row `analyze_geographic_performance` produces for `dfGeo`. -/
def geoRow0 : StateRow :=
  { state := "SP"
    total_revenue := 100
    total_orders := 1
    unique_customers := 1
    avg_item_price := .fin 100
    revenue_per_customer := .fin 100 }

/-- Current period: one order of revenue 120. -/
def dfCur : DataFrame := mkDf [mkRow 1 1 1 120 120 ⟨2023, 2, 5⟩]

/-- Previous period: one order of revenue 100. -/
def dfPrev : DataFrame := mkDf [mkRow 1 1 1 100 100 ⟨2023, 1, 5⟩]

/-- A frame for the health-score witness (non-empty, no optional
columns). -/
def dfHealthW : DataFrame := mkDf [mkRow 1 1 1 100 100 ⟨2023, 1, 5⟩]

/-- With no comparison set, `calculate_revenue_metrics` is exactly the
base-metrics computation (the source's recursive call instantiates this). -/
theorem calculate_revenue_metrics_none (df : DataFrame) :
    calculate_revenue_metrics df none = .ok (revenue_metrics_base df) := rfl

/-- A non-empty frame has at least one distinct order. -/
theorem totalOrders_ne_zero (df : DataFrame) (h : df.rows ≠ []) :
    totalOrdersOf df ≠ 0 := by
  unfold totalOrdersOf
  simp only [ne_eq, List.length_eq_zero, List.dedup_eq_nil, List.map_eq_nil_iff]
  exact h

/-- `pfMean` of a non-empty list is finite. -/
theorem pfMean_of_ne_nil (xs : List ℚ) (h : xs ≠ []) :
    pfMean xs = .fin (xs.sum / (xs.length : ℚ)) := by
  unfold pfMean
  simp [List.length_eq_zero, h]

/-- `clampScore` on a finite value is `min (max · 0) 100`. -/
theorem clampScore_fin (a : ℚ) : clampScore (.fin a) = .fin (min (max a 0) 100) := by
  unfold clampScore pmaxPy
  rcases lt_or_le a 0 with h0 | h0
  · rw [if_pos (show pfLt (.fin a) (.fin 0) = true by simp [pfLt, h0])]
    unfold pminPy
    rw [if_neg (show ¬pfLt (.fin 100) (.fin (0 : ℚ)) = true by simp [pfLt]),
      max_eq_right h0.le, min_eq_left (by norm_num)]
  · rw [if_neg (show ¬pfLt (.fin a) (.fin 0) = true by simp [pfLt, not_lt.mpr h0])]
    unfold pminPy
    rcases lt_or_le 100 a with h1 | h1
    · rw [if_pos (show pfLt (.fin 100) (.fin a) = true by simp [pfLt, h1]),
        max_eq_left h0, min_eq_right h1.le]
    · rw [if_neg (show ¬pfLt (.fin 100) (.fin a) = true by simp [pfLt, not_lt.mpr h1]),
        max_eq_left h0, min_eq_left h1]

/-- `clampScore` sends `+inf` to 100. -/
theorem clampScore_pinf : clampScore .pinf = .fin 100 := rfl

/-- `clampScore` sends `-inf` to 0. -/
theorem clampScore_ninf : clampScore .ninf = .fin 0 := rfl

/-- The clamped value of any non-`nan` score lies in [0, 100]. -/
theorem clampScore_bounds (x : PFloat) (hx : x ≠ .nan) :
    ∃ q : ℚ, clampScore x = .fin q ∧ 0 ≤ q ∧ q ≤ 100 := by
  cases x with
  | fin a =>
      exact ⟨min (max a 0) 100, clampScore_fin a,
        le_min (le_max_right a 0) (by norm_num), min_le_right _ _⟩
  | pinf => exact ⟨100, clampScore_pinf, by norm_num, by norm_num⟩
  | ninf => exact ⟨0, clampScore_ninf, by norm_num, by norm_num⟩
  | nan => exact absurd rfl hx

/-- A float division of finite values is `nan` only for `0 / 0`. -/
theorem pfDiv_fin_ne_nan (x y : ℚ) (h : ¬(x = 0 ∧ y = 0)) :
    pfDiv (.fin x) (.fin y) ≠ .nan := by
  simp only [pfDiv]
  split_ifs with h1 h2 h3 <;> simp_all
  exact h (le_antisymm h2 h3)

/-- A float division by a non-zero finite value is finite. -/
theorem pfDiv_fin_of_ne (x y : ℚ) (hy : y ≠ 0) :
    pfDiv (.fin x) (.fin y) = .fin (x / y) := by
  simp only [pfDiv]
  simp [hy]

/-- `roundHalfEven` is at most half a unit above its argument. -/
theorem roundHalfEven_le (q : ℚ) : 2 * (roundHalfEven q : ℚ) ≤ 2 * q + 1 := by
  simp only [roundHalfEven]
  have hf : (⌊q⌋ : ℚ) ≤ q := Int.floor_le q
  have hf1 : q < (⌊q⌋ : ℚ) + 1 := Int.lt_floor_add_one q
  split_ifs with h1 h2 h3 <;> push_cast <;> linarith

/-- `roundHalfEven` is less than half a unit below its argument. -/
theorem roundHalfEven_ge (q : ℚ) : 2 * q - 1 ≤ 2 * (roundHalfEven q : ℚ) := by
  simp only [roundHalfEven]
  have hf : (⌊q⌋ : ℚ) ≤ q := Int.floor_le q
  have hf1 : q < (⌊q⌋ : ℚ) + 1 := Int.lt_floor_add_one q
  split_ifs with h1 h2 h3 <;> push_cast <;> linarith

/-- Python `round(x, 1)` keeps a value of [0, 100] inside [0, 100]. -/
theorem pfRound1_bounds (q : ℚ) (h0 : 0 ≤ q) (h1 : q ≤ 100) :
    ∃ w : ℚ, pfRound1 (.fin q) = .fin w ∧ 0 ≤ w ∧ w ≤ 100 := by
  refine ⟨(roundHalfEven (q * 10) : ℚ) / 10, rfl, ?_, ?_⟩
  · have hge := roundHalfEven_ge (q * 10)
    have hR : (0 : ℚ) ≤ (roundHalfEven (q * 10) : ℚ) := by
      have h2 : (-1 : ℚ) ≤ 2 * (roundHalfEven (q * 10) : ℚ) := by linarith
      have hint : (-1 : ℤ) ≤ 2 * roundHalfEven (q * 10) := by exact_mod_cast h2
      have h3 : (0 : ℤ) ≤ roundHalfEven (q * 10) := by omega
      exact_mod_cast h3
    positivity
  · have hle := roundHalfEven_le (q * 10)
    have hR : (roundHalfEven (q * 10) : ℚ) ≤ 1000 := by
      have h2 : 2 * (roundHalfEven (q * 10) : ℚ) ≤ 2001 := by linarith
      have hint : 2 * roundHalfEven (q * 10) ≤ 2001 := by exact_mod_cast h2
      have h3 : roundHalfEven (q * 10) ≤ 1000 := by omega
      exact_mod_cast h3
    linarith

/-- With a comparison set that has at least one distinct order,
`calculate_revenue_metrics` succeeds and its growth fields are the three
divisions of lines 48-59. -/
theorem calculate_revenue_metrics_some (df comp : DataFrame)
    (h : totalOrdersOf comp ≠ 0) :
    calculate_revenue_metrics df (some comp) =
      .ok { revenue_metrics_base df with
        revenue_growth_rate := some (pfDiv
          (.fin (totalRevenueOf df - totalRevenueOf comp)) (.fin (totalRevenueOf comp)))
        order_growth_rate := some (.fin
          (((totalOrdersOf df : ℚ) - (totalOrdersOf comp : ℚ)) / (totalOrdersOf comp : ℚ)))
        aov_growth_rate := some (pfDiv
          (pfSub (pfMean (orderSums df)) (pfMean (orderSums comp)))
          (pfMean (orderSums comp))) } := by
  simp only [calculate_revenue_metrics]
  rw [if_neg (show ¬(revenue_metrics_base comp).total_orders = 0 from h)]
  rfl

/-- When the growth-rate field is not `nan`, the pre-clamp revenue score
(lines 268-274) is finite. -/
theorem revenueScoreOf_fin (comparison_df : Option DataFrame) (rm : RevenueMetrics)
    (h : ∀ g, rm.revenue_growth_rate = some g → g ≠ .nan) :
    ∃ q : ℚ, revenueScoreOf comparison_df rm = .fin q := by
  cases comparison_df with
  | none => exact ⟨70, rfl⟩
  | some c =>
      cases hg : rm.revenue_growth_rate with
      | none => exact ⟨70, by simp [revenueScoreOf, hg]⟩
      | some g =>
          have hnan := h g hg
          cases g with
          | fin a =>
              simp only [revenueScoreOf, hg, pfMul, pfLt, pminPy, pmaxPy, pfAdd]
              split_ifs <;> exact ⟨_, rfl⟩
          | pinf =>
              refine ⟨100, ?_⟩
              simp only [revenueScoreOf, hg]
              norm_num [pfLt, pfMul, pminPy, pfAdd]
          | ninf =>
              refine ⟨40, ?_⟩
              simp only [revenueScoreOf, hg]
              norm_num [pfLt, pfMul, pmaxPy, pfAdd]
          | nan => exact absurd rfl hnan

/-- Filtering to the rows where `f` is defined makes `filterMap f` exactly
as long as the filtered list (pandas `dropna` then column extraction). -/
theorem length_filterMap_isSome {α β : Type} (f : α → Option β) (l : List α) :
    ((l.filter (fun x => (f x).isSome)).filterMap f).length =
      (l.filter (fun x => (f x).isSome)).length := by
  induction l with
  | nil => rfl
  | cons a t ih =>
      by_cases h : (f a).isSome
      · obtain ⟨b, hb⟩ := Option.isSome_iff_exists.mp h
        simp [List.filter_cons, h, List.filterMap_cons, hb, ih]
      · simp [List.filter_cons, h, ih]

/-- The `avg_review_score` key of `analyze_customer_experience` is the
review-block conditional, whatever delivery branch was taken. -/
theorem cx_avg_eq (df : DataFrame) (cxm : CxMetrics)
    (h : analyze_customer_experience df = .ok cxm) :
    cxm.avg_review_score =
      (if df.hasReviewScore &&
          decide (0 < (df.rows.filter (fun r => r.review_score.isSome)).length) then
        some (pfMean
          ((df.rows.filter (fun r => r.review_score.isSome)).filterMap Row.review_score))
      else none) := by
  simp only [analyze_customer_experience] at h
  split at h
  · split at h
    · split at h
      · cases h; rfl
      · cases h
    · cases h; rfl
  · cases h; rfl

/-- When present, `avg_review_score` is a finite mean. -/
theorem cx_avg_none_or_fin (df : DataFrame) (cxm : CxMetrics)
    (h : analyze_customer_experience df = .ok cxm) :
    cxm.avg_review_score = none ∨ ∃ a : ℚ, cxm.avg_review_score = some (.fin a) := by
  rw [cx_avg_eq df cxm h]
  by_cases hb : (df.hasReviewScore &&
      decide (0 < (df.rows.filter (fun r => r.review_score.isSome)).length)) = true
  · right
    rw [if_pos hb]
    have hlen : 0 < (df.rows.filter (fun r => r.review_score.isSome)).length := by
      have := (Bool.and_eq_true _ _).mp hb
      exact of_decide_eq_true this.2
    have hne : (df.rows.filter (fun r => r.review_score.isSome)).filterMap Row.review_score ≠ [] := by
      rw [← List.length_pos_iff_ne_nil, length_filterMap_isSome]
      exact hlen
    exact ⟨_, by rw [pfMean_of_ne_nil _ hne]⟩
  · left; rw [if_neg hb]

/-- The operational score is one of 50, 70, 80, 90 — always in [0, 100]. -/
theorem opsScoreOf_bounds (cxm : CxMetrics) :
    ∃ q : ℚ, opsScoreOf cxm = .fin q ∧ 0 ≤ q ∧ q ≤ 100 := by
  cases hd : cxm.avg_delivery_days with
  | none => exact ⟨70, by simp [opsScoreOf, hd], by norm_num, by norm_num⟩
  | some d =>
      simp only [opsScoreOf, hd]
      split_ifs with h1 h2 h3
      · exact ⟨90, rfl, by norm_num, by norm_num⟩
      · exact ⟨80, rfl, by norm_num, by norm_num⟩
      · exact ⟨70, rfl, by norm_num, by norm_num⟩
      · exact ⟨50, rfl, by norm_num, by norm_num⟩

/-- On a non-empty frame the fulfillment score is a delivered-row share in
[0, 100] (or the 70 default without the status column). -/
theorem fulfillmentScore_ok (df : DataFrame) (h : df.rows ≠ []) :
    ∃ q : ℚ, fulfillmentScore df = .ok (.fin q) ∧ 0 ≤ q ∧ q ≤ 100 := by
  unfold fulfillmentScore
  by_cases hs : df.hasOrderStatus = true
  · have hlen : df.rows.length ≠ 0 := by
      simpa [List.length_eq_zero] using h
    rw [if_pos hs, if_neg hlen]
    refine ⟨_, rfl, by positivity, ?_⟩
    have hle : ((df.rows.filter (fun r => r.order_status = "delivered")).length : ℚ) ≤
        (df.rows.length : ℚ) := by
      exact_mod_cast List.length_filter_le _ _
    have hpos : (0 : ℚ) < (df.rows.length : ℚ) := by
      exact_mod_cast Nat.pos_of_ne_zero hlen
    have hone := (div_le_one hpos).mpr hle
    linarith
  · rw [if_neg hs]
    exact ⟨70, rfl, by norm_num, by norm_num⟩

/-- The fold inside `minTs` returns the accumulator or a list element, and
its `tsIdx` is minimal among accumulator and list. -/
theorem foldl_minTs_spec (l : List Timestamp) : ∀ acc : Timestamp,
    (l.foldl (fun a b => if tsIdx b < tsIdx a then b else a) acc = acc ∨
      l.foldl (fun a b => if tsIdx b < tsIdx a then b else a) acc ∈ l) ∧
    tsIdx (l.foldl (fun a b => if tsIdx b < tsIdx a then b else a) acc) ≤ tsIdx acc ∧
    ∀ x ∈ l, tsIdx (l.foldl (fun a b => if tsIdx b < tsIdx a then b else a) acc) ≤ tsIdx x := by
  induction l with
  | nil =>
      intro acc
      exact ⟨Or.inl rfl, le_refl _, by intro x hx; cases hx⟩
  | cons b t ih =>
      intro acc
      rw [List.foldl_cons]
      by_cases h : tsIdx b < tsIdx acc
      · rw [if_pos h]
        rcases ih b with ⟨hmem, hle, hall⟩
        refine ⟨?_, le_trans hle h.le, ?_⟩
        · rcases hmem with h1 | h1
          · rw [h1]; exact Or.inr (List.mem_cons_self b t)
          · exact Or.inr (List.mem_cons_of_mem b h1)
        · intro x hx
          rcases List.mem_cons.mp hx with rfl | hx
          · exact hle
          · exact hall x hx
      · rw [if_neg h]
        rcases ih acc with ⟨hmem, hle, hall⟩
        refine ⟨?_, hle, ?_⟩
        · rcases hmem with h1 | h1
          · exact Or.inl h1
          · exact Or.inr (List.mem_cons_of_mem b h1)
        · intro x hx
          rcases List.mem_cons.mp hx with rfl | hx
          · exact le_trans hle (not_lt.mp h)
          · exact hall x hx

/-- The minimum timestamp is an element of the list. -/
theorem minTs_mem (l : List Timestamp) (t : Timestamp) (h : minTs l = some t) :
    t ∈ l := by
  cases l with
  | nil => cases h
  | cons b ts =>
      simp only [minTs, Option.some.injEq] at h
      rcases (foldl_minTs_spec ts b).1 with h1 | h1
      · rw [← h, h1]; exact List.mem_cons_self b ts
      · rw [← h]; exact List.mem_cons_of_mem b h1

/-- The minimum timestamp is below every element of the list. -/
theorem minTs_le (l : List Timestamp) (t : Timestamp) (h : minTs l = some t) :
    ∀ x ∈ l, tsIdx t ≤ tsIdx x := by
  cases l with
  | nil => cases h
  | cons b ts =>
      simp only [minTs, Option.some.injEq] at h
      rcases foldl_minTs_spec ts b with ⟨hmem, hle, hall⟩
      intro x hx
      rcases List.mem_cons.mp hx with rfl | hx
      · exact h ▸ hle
      · exact h ▸ hall x hx

/-- A non-empty list has a minimum timestamp. -/
theorem minTs_isSome (l : List Timestamp) (h : l ≠ []) :
    ∃ t, minTs l = some t := by
  cases l with
  | nil => exact absurd rfl h
  | cons b ts => exact ⟨_, rfl⟩

/-- On calendar-valid timestamps, `tsIdx` order implies month order. -/
theorem monthIdx_le_of_tsIdx_le (s t : Timestamp) (hs : validTs s) (ht : validTs t)
    (h : tsIdx s ≤ tsIdx t) : monthIdx s ≤ monthIdx t := by
  unfold tsIdx monthIdx validTs at *
  omega

/-- C2: `average_order_value` is the mean of the per-order revenue sums —
one summand per distinct order, not per row — and on the spec's scenario
(orders 100, 150 split over two rows, 250) the metrics are
`total_revenue = 500`, `total_orders = 3`, `average_order_value = 500/3`
(166.67 at two decimals), different from the row-level mean 125. -/
theorem c2_average_order_value :
    (∀ df : DataFrame, df.rows ≠ [] →
      ∃ m, calculate_revenue_metrics df none = .ok m ∧
        m.average_order_value = .fin ((orderSums df).sum / ((orderSums df).length : ℚ)) ∧
        (orderSums df).length = totalOrdersOf df) ∧
    (∃ m, calculate_revenue_metrics scenarioDf none = .ok m ∧
      m.total_revenue = 500 ∧ m.total_orders = 3 ∧
      m.average_order_value = .fin (500/3) ∧
      roundQ2 (500/3) = 16667/100 ∧
      pfMean (scenarioDf.rows.map Row.total_revenue) = .fin 125 ∧
      m.average_order_value ≠ pfMean (scenarioDf.rows.map Row.total_revenue)) := by
  constructor
  · intro df hdf
    have hlen : (orderSums df).length = totalOrdersOf df := by
      unfold orderSums uniqueOrderIds totalOrdersOf
      rw [List.length_map, length_insSortB]
    have hne : orderSums df ≠ [] := by
      rw [← List.length_pos_iff_ne_nil, hlen]
      exact Nat.pos_of_ne_zero (totalOrders_ne_zero df hdf)
    exact ⟨revenue_metrics_base df, rfl, pfMean_of_ne_nil _ hne, hlen⟩
  · have haov : (revenue_metrics_base scenarioDf).average_order_value = .fin (500/3) := by
      norm_num [revenue_metrics_base, scenarioDf, mkDf, mkRow, orderSums, uniqueOrderIds,
        pfMean, insSortB, insertB, List.dedup_cons_of_mem, List.dedup_cons_of_not_mem]
    have hrow : pfMean (scenarioDf.rows.map Row.total_revenue) = .fin 125 := by
      norm_num [pfMean, scenarioDf, mkDf, mkRow]
    refine ⟨revenue_metrics_base scenarioDf, rfl, ?_, ?_, haov, ?_, hrow, ?_⟩
    · norm_num [revenue_metrics_base, totalRevenueOf, scenarioDf, mkDf, mkRow]
    · norm_num [revenue_metrics_base, totalOrdersOf, scenarioDf, mkDf, mkRow,
        List.dedup_cons_of_mem, List.dedup_cons_of_not_mem]
    · norm_num [roundQ2, roundHalfEven]
    · rw [haov, hrow]
      intro hcon
      have : (500 / 3 : ℚ) = 125 := by injection hcon
      norm_num at this

/-- C2 witness: the universal part applied to the scenario frame. -/
theorem c2_average_order_value_witness :
    ∃ m, calculate_revenue_metrics scenarioDf none = .ok m ∧
      m.average_order_value =
        .fin ((orderSums scenarioDf).sum / ((orderSums scenarioDf).length : ℚ)) ∧
      (orderSums scenarioDf).length = totalOrdersOf scenarioDf :=
  c2_average_order_value.1 scenarioDf (by decide)

/-- Finite float addition is rational addition. -/
theorem pfAdd_fin (a b : ℚ) : pfAdd (.fin a) (.fin b) = .fin (a + b) := rfl

/-- Finite float multiplication is rational multiplication. -/
theorem pfMul_fin (a b : ℚ) : pfMul (.fin a) (.fin b) = .fin (a * b) := rfl

/-- Finite float subtraction is rational subtraction. -/
theorem pfSub_fin (a b : ℚ) : pfSub (.fin a) (.fin b) = .fin (a - b) := by
  simp [pfSub, pfAdd, pfNeg, sub_eq_add_neg]

/-- Without a `delivery_category` column, `analyze_customer_experience`
never reaches the faulty aggregation and returns normally. -/
theorem cx_isOk_of_no_delivery_category (df : DataFrame)
    (h : df.hasDeliveryCategory = false) :
    ∃ cxm, analyze_customer_experience df = .ok cxm := by
  simp only [analyze_customer_experience]
  by_cases hA : (df.hasDeliveryDays &&
      decide (0 < (df.rows.filter (fun r => r.delivery_days.isSome)).length)) = true
  · rw [if_pos hA, if_neg (by simp [h])]
    exact ⟨_, rfl⟩
  · rw [if_neg hA]
    exact ⟨_, rfl⟩

/-- The health score succeeds on a non-empty frame whose comparison set (if
any) has an order, when the customer-experience analysis succeeds. -/
theorem health_isOk (df : DataFrame) (comparison_df : Option DataFrame)
    (h1 : df.rows ≠ [])
    (h2 : ∀ c, comparison_df = some c → totalOrdersOf c ≠ 0)
    (h3 : ∃ cxm, analyze_customer_experience df = .ok cxm) :
    ∃ hm, calculate_business_health_score df comparison_df = .ok hm := by
  obtain ⟨cxm, hcx⟩ := h3
  obtain ⟨q, hful, _, _⟩ := fulfillmentScore_ok df h1
  have hrm : ∃ rm, calculate_revenue_metrics df comparison_df = .ok rm := by
    cases comparison_df with
    | none => exact ⟨_, rfl⟩
    | some c => exact ⟨_, calculate_revenue_metrics_some df c (h2 c rfl)⟩
  obtain ⟨rm, hrm2⟩ := hrm
  unfold calculate_business_health_score
  rw [hrm2, hcx, hful]
  exact ⟨_, rfl⟩

/-- C5: whenever `avg_review_score` is available, the pre-clamp
customer-experience score is `70 + ((avg - 1)/4)*30 - 30`, i.e.
`40 + (avg - 1)*7.5`, and the published score is its clamp to [0, 100]
(the identity on [40, 70], so `avg = 5` gives 70 and `avg = 1` gives 40);
when unavailable the score is 70. -/
theorem c5_customer_experience_score (df : DataFrame) (comparison_df : Option DataFrame)
    (hm : HealthMetrics) (h : calculate_business_health_score df comparison_df = .ok hm) :
    ∃ cxm, analyze_customer_experience df = .ok cxm ∧
      hm.customer_experience_score = clampScore (cxScoreRaw cxm) ∧
      (∀ a : ℚ, cxm.avg_review_score = some (.fin a) →
        cxScoreRaw cxm = .fin (40 + (a - 1) * (15/2)) ∧
        hm.customer_experience_score = .fin (min (max (40 + (a - 1) * (15/2)) 0) 100)) ∧
      (cxm.avg_review_score = none → hm.customer_experience_score = .fin 70) := by
  unfold calculate_business_health_score at h
  cases hrm : calculate_revenue_metrics df comparison_df with
  | error e => rw [hrm] at h; cases h
  | ok rm =>
      rw [hrm] at h
      cases hcx : analyze_customer_experience df with
      | error e => rw [hcx] at h; cases h
      | ok cxm =>
          rw [hcx] at h
          cases hful : fulfillmentScore df with
          | error e => rw [hful] at h; cases h
          | ok ful =>
              rw [hful] at h
              simp only [Except.ok.injEq] at h
              subst h
              refine ⟨cxm, rfl, rfl, ?_, ?_⟩
              · intro a ha
                have hraw : cxScoreRaw cxm = .fin (40 + (a - 1) * (15/2)) := by
                  simp only [cxScoreRaw, ha]
                  rw [pfSub_fin a 1, pfDiv_fin_of_ne (a - 1) 4 (by norm_num),
                    pfMul_fin, pfAdd_fin, pfSub_fin, PFloat.fin.injEq]
                  ring
                refine ⟨hraw, ?_⟩
                show clampScore (cxScoreRaw cxm) = _
                rw [hraw, clampScore_fin]
              · intro ha
                show clampScore (cxScoreRaw cxm) = _
                have hraw : cxScoreRaw cxm = .fin 70 := by
                  simp [cxScoreRaw, ha]
                rw [hraw, clampScore_fin]
                norm_num

/-- C5 witness: the theorem applied to a frame with a single 5-star review
(raw and published score 70) and to one with a single 1-star review (score
40). -/
theorem c5_customer_experience_score_witness :
    (∃ cxm, analyze_customer_experience dfReview5 = .ok cxm ∧
      cxm.avg_review_score = some (.fin 5) ∧ cxScoreRaw cxm = .fin 70) ∧
    (∃ cxm, analyze_customer_experience dfReview1 = .ok cxm ∧
      cxm.avg_review_score = some (.fin 1) ∧ cxScoreRaw cxm = .fin 40) := by
  constructor
  · obtain ⟨hm, hh⟩ := health_isOk dfReview5 none (by decide)
      (fun c hc => by cases hc) (cx_isOk_of_no_delivery_category dfReview5 rfl)
    obtain ⟨cxm, hcx, hclamp, hall, hnone⟩ :=
      c5_customer_experience_score dfReview5 none hm hh
    have havg : cxm.avg_review_score = some (.fin 5) := by
      rw [cx_avg_eq dfReview5 cxm hcx]
      norm_num [dfReview5, mkDf, mkRow, pfMean]
      rw [if_neg (by simp)]
      norm_num [List.filterMap_cons, PFloat.fin.injEq]
    refine ⟨cxm, hcx, havg, ?_⟩
    rw [(hall 5 havg).1, PFloat.fin.injEq]
    norm_num
  · obtain ⟨hm, hh⟩ := health_isOk dfReview1 none (by decide)
      (fun c hc => by cases hc) (cx_isOk_of_no_delivery_category dfReview1 rfl)
    obtain ⟨cxm, hcx, hclamp, hall, hnone⟩ :=
      c5_customer_experience_score dfReview1 none hm hh
    have havg : cxm.avg_review_score = some (.fin 1) := by
      rw [cx_avg_eq dfReview1 cxm hcx]
      norm_num [dfReview1, mkDf, mkRow, pfMean]
      rw [if_neg (by simp)]
      norm_num [List.filterMap_cons, PFloat.fin.injEq]
    refine ⟨cxm, hcx, havg, ?_⟩
    rw [(hall 1 havg).1, PFloat.fin.injEq]
    norm_num

/-- Unless both total revenues are zero, the revenue growth rate a
successful comparison run stores is never `nan` (it is finite or a signed
infinity). -/
theorem growth_ne_nan_of (df c : DataFrame) (rm : RevenueMetrics)
    (hok : calculate_revenue_metrics df (some c) = .ok rm)
    (h : ¬(totalRevenueOf df = 0 ∧ totalRevenueOf c = 0)) :
    ∀ g, rm.revenue_growth_rate = some g → g ≠ .nan := by
  have horders : totalOrdersOf c ≠ 0 := by
    intro h0
    simp only [calculate_revenue_metrics] at hok
    rw [if_pos (show (revenue_metrics_base c).total_orders = 0 from h0)] at hok
    cases hok
  rw [calculate_revenue_metrics_some df c horders] at hok
  simp only [Except.ok.injEq] at hok
  subst hok
  intro g hg
  simp only [Option.some.injEq] at hg
  subst hg
  refine pfDiv_fin_ne_nan _ _ ?_
  rintro ⟨ha, hb⟩
  exact h ⟨by linarith, hb⟩

/-- The pre-clamp customer-experience score of a successful analysis is
finite. -/
theorem cxScoreRaw_fin (df : DataFrame) (cxm : CxMetrics)
    (h : analyze_customer_experience df = .ok cxm) :
    ∃ q : ℚ, cxScoreRaw cxm = .fin q := by
  rcases cx_avg_none_or_fin df cxm h with hn | ⟨a, ha⟩
  · exact ⟨70, by simp [cxScoreRaw, hn]⟩
  · refine ⟨40 + (a - 1) * (15/2), ?_⟩
    simp only [cxScoreRaw, ha]
    rw [pfSub_fin a 1, pfDiv_fin_of_ne (a - 1) 4 (by norm_num), pfMul_fin,
      pfAdd_fin, pfSub_fin, PFloat.fin.injEq]
    ring

/-- C4 (amended): on a non-empty frame — whose comparison set, when
supplied, is itself non-empty with the two total revenues not both zero —
and when the customer-experience analysis returns (see C7 for the failing
configuration), every component score is finite in [0, 100], the four
weights sum to exactly 1, and the rounded overall score is finite in
[0, 100]. -/
theorem c4_health_bounds (df : DataFrame) (comparison_df : Option DataFrame)
    (h1 : df.rows ≠ [])
    (h2 : ∀ c, comparison_df = some c →
      c.rows ≠ [] ∧ ¬(totalRevenueOf df = 0 ∧ totalRevenueOf c = 0))
    (h3 : ∃ cxm, analyze_customer_experience df = .ok cxm) :
    wRevenue + wCustomerExperience + wOperational + wFulfillment = 1 ∧
    ∃ hm, calculate_business_health_score df comparison_df = .ok hm ∧
      (∃ q, hm.revenue_score = .fin q ∧ 0 ≤ q ∧ q ≤ 100) ∧
      (∃ q, hm.customer_experience_score = .fin q ∧ 0 ≤ q ∧ q ≤ 100) ∧
      (∃ q, hm.operational_score = .fin q ∧ 0 ≤ q ∧ q ≤ 100) ∧
      (∃ q, hm.fulfillment_score = .fin q ∧ 0 ≤ q ∧ q ≤ 100) ∧
      (∃ q, hm.overall_health_score = .fin q ∧ 0 ≤ q ∧ q ≤ 100) := by
  refine ⟨by norm_num [wRevenue, wCustomerExperience, wOperational, wFulfillment], ?_⟩
  obtain ⟨cxm, hcx⟩ := h3
  obtain ⟨qf, hful, hqf0, hqf1⟩ := fulfillmentScore_ok df h1
  obtain ⟨rm, hrm, hgne⟩ : ∃ rm, calculate_revenue_metrics df comparison_df = .ok rm ∧
      ∀ g, rm.revenue_growth_rate = some g → g ≠ .nan := by
    cases comparison_df with
    | none =>
        refine ⟨revenue_metrics_base df, rfl, ?_⟩
        intro g hg
        simp [revenue_metrics_base] at hg
    | some c =>
        obtain ⟨hc1, hc2⟩ := h2 c rfl
        have hok := calculate_revenue_metrics_some df c (totalOrders_ne_zero c hc1)
        exact ⟨_, hok, growth_ne_nan_of df c _ hok hc2⟩
  obtain ⟨q1, hq1, hq10, hq11⟩ := clampScore_bounds (revenueScoreOf comparison_df rm)
    (by obtain ⟨q0, hq0⟩ := revenueScoreOf_fin comparison_df rm hgne; rw [hq0]; simp)
  obtain ⟨q2, hq2, hq20, hq21⟩ := clampScore_bounds (cxScoreRaw cxm)
    (by obtain ⟨q0, hq0⟩ := cxScoreRaw_fin df cxm hcx; rw [hq0]; simp)
  obtain ⟨q3, hq3, hq30, hq31⟩ := opsScoreOf_bounds cxm
  have hhealth : calculate_business_health_score df comparison_df = .ok
      { revenue_score := clampScore (revenueScoreOf comparison_df rm)
        customer_experience_score := clampScore (cxScoreRaw cxm)
        operational_score := opsScoreOf cxm
        fulfillment_score := .fin qf
        overall_health_score := pfRound1
          (pfAdd
            (pfAdd (pfMul (clampScore (revenueScoreOf comparison_df rm)) (.fin wRevenue))
              (pfMul (clampScore (cxScoreRaw cxm)) (.fin wCustomerExperience)))
            (pfAdd (pfMul (opsScoreOf cxm) (.fin wOperational))
              (pfMul (.fin qf) (.fin wFulfillment)))) } := by
    unfold calculate_business_health_score
    rw [hrm, hcx, hful]
  have hov : pfAdd
      (pfAdd (pfMul (clampScore (revenueScoreOf comparison_df rm)) (.fin wRevenue))
        (pfMul (clampScore (cxScoreRaw cxm)) (.fin wCustomerExperience)))
      (pfAdd (pfMul (opsScoreOf cxm) (.fin wOperational))
        (pfMul (.fin qf) (.fin wFulfillment))) =
      .fin (q1 * wRevenue + q2 * wCustomerExperience + q3 * wOperational +
        qf * wFulfillment) := by
    rw [hq1, hq2, hq3, pfMul_fin, pfMul_fin, pfMul_fin, pfMul_fin,
      pfAdd_fin, pfAdd_fin, pfAdd_fin, PFloat.fin.injEq]
    ring
  have hsum0 : 0 ≤ q1 * wRevenue + q2 * wCustomerExperience + q3 * wOperational +
      qf * wFulfillment := by
    have t1 : 0 ≤ q1 * wRevenue := mul_nonneg hq10 (by norm_num [wRevenue])
    have t2 : 0 ≤ q2 * wCustomerExperience :=
      mul_nonneg hq20 (by norm_num [wCustomerExperience])
    have t3 : 0 ≤ q3 * wOperational := mul_nonneg hq30 (by norm_num [wOperational])
    have t4 : 0 ≤ qf * wFulfillment := mul_nonneg hqf0 (by norm_num [wFulfillment])
    linarith
  have hsum1 : q1 * wRevenue + q2 * wCustomerExperience + q3 * wOperational +
      qf * wFulfillment ≤ 100 := by
    have t1 : q1 * wRevenue ≤ 100 * wRevenue :=
      mul_le_mul_of_nonneg_right hq11 (by norm_num [wRevenue])
    have t2 : q2 * wCustomerExperience ≤ 100 * wCustomerExperience :=
      mul_le_mul_of_nonneg_right hq21 (by norm_num [wCustomerExperience])
    have t3 : q3 * wOperational ≤ 100 * wOperational :=
      mul_le_mul_of_nonneg_right hq31 (by norm_num [wOperational])
    have t4 : qf * wFulfillment ≤ 100 * wFulfillment :=
      mul_le_mul_of_nonneg_right hqf1 (by norm_num [wFulfillment])
    have hw : 100 * wRevenue + 100 * wCustomerExperience + 100 * wOperational +
        100 * wFulfillment = 100 := by
      norm_num [wRevenue, wCustomerExperience, wOperational, wFulfillment]
    linarith
  obtain ⟨w, hw, hw0, hw1⟩ := pfRound1_bounds _ hsum0 hsum1
  refine ⟨_, hhealth, ⟨q1, hq1, hq10, hq11⟩, ⟨q2, hq2, hq20, hq21⟩,
    ⟨q3, hq3, hq30, hq31⟩, ⟨qf, rfl, hqf0, hqf1⟩, ⟨w, ?_, hw0, hw1⟩⟩
  show pfRound1 _ = _
  rw [hov, hw]

/-- C4 witness: the amended bounds at a concrete non-empty frame with no
comparison set. -/
theorem c4_health_bounds_witness :
    wRevenue + wCustomerExperience + wOperational + wFulfillment = 1 ∧
    ∃ hm, calculate_business_health_score dfHealthW none = .ok hm ∧
      (∃ q, hm.revenue_score = .fin q ∧ 0 ≤ q ∧ q ≤ 100) ∧
      (∃ q, hm.customer_experience_score = .fin q ∧ 0 ≤ q ∧ q ≤ 100) ∧
      (∃ q, hm.operational_score = .fin q ∧ 0 ≤ q ∧ q ≤ 100) ∧
      (∃ q, hm.fulfillment_score = .fin q ∧ 0 ≤ q ∧ q ≤ 100) ∧
      (∃ q, hm.overall_health_score = .fin q ∧ 0 ≤ q ∧ q ≤ 100) :=
  c4_health_bounds dfHealthW none (by decide) (fun c hc => nomatch hc)
    (cx_isOk_of_no_delivery_category dfHealthW rfl)

/-- C4 counterexample: on the empty frame (whose required `order_status`
column is present) the health score does not return component scores at
all — the fulfillment share divides by `len(df) = 0` and the computation
raises `ZeroDivisionError`, so the claimed bounds fail as stated. -/
theorem c4_health_bounds_cex :
    calculate_business_health_score dfEmpty none =
      .error "ZeroDivisionError: division by zero" := rfl

/-- Every row's customer has a first-purchase timestamp (the customer owns
at least that row). -/
theorem customerFirstTs_isSome (df : DataFrame) (r : Row) (hr : r ∈ df.rows) :
    ∃ t0, customerFirstTs df r.customer_id = some t0 := by
  unfold customerFirstTs
  apply minTs_isSome
  intro hmap
  rw [List.map_eq_nil_iff] at hmap
  have hrf : r ∈ df.rows.filter (fun x => x.customer_id = r.customer_id) :=
    List.mem_filter.mpr ⟨hr, by simp⟩
  rw [hmap] at hrf
  cases hrf

/-- C3: every row's `period_number` equals the whole-calendar-month
difference between the row's order month and its customer's
first-purchase month, and — the cohort month being the customer's
earliest month — it is non-negative; hence every period number appearing
in the retention matrix is non-negative. -/
theorem c3_cohort_period (df : DataFrame)
    (hv : ∀ r ∈ df.rows, validTs r.order_purchase_timestamp) :
    (∀ r ∈ df.rows, ∀ t0, customerFirstTs df r.customer_id = some t0 →
      periodNumber df r =
        (r.order_purchase_timestamp.year - t0.year) * 12 +
          (r.order_purchase_timestamp.month - t0.month) ∧
      0 ≤ periodNumber df r) ∧
    ∀ e ∈ calculate_cohort_analysis df, 0 ≤ e.1.2 := by
  have key : ∀ r ∈ df.rows, ∀ t0, customerFirstTs df r.customer_id = some t0 →
      periodNumber df r =
        (r.order_purchase_timestamp.year - t0.year) * 12 +
          (r.order_purchase_timestamp.month - t0.month) ∧
      0 ≤ periodNumber df r := by
    intro r hr t0 ht0
    have hpn : periodNumber df r =
        monthIdx r.order_purchase_timestamp - monthIdx t0 := by
      unfold periodNumber
      rw [ht0]
    constructor
    · rw [hpn]; unfold monthIdx; ring
    · rw [hpn]
      have hmem := minTs_mem _ _ ht0
      obtain ⟨r0, hr0f, hr0⟩ := List.mem_map.mp hmem
      have hr0rows : r0 ∈ df.rows := (List.mem_filter.mp hr0f).1
      have hv0 : validTs t0 := hr0 ▸ hv r0 hr0rows
      have hvr : validTs r.order_purchase_timestamp := hv r hr
      have hle : tsIdx t0 ≤ tsIdx r.order_purchase_timestamp := by
        apply minTs_le _ _ ht0
        exact List.mem_map_of_mem _ (List.mem_filter.mpr ⟨hr, by simp⟩)
      have := monthIdx_le_of_tsIdx_le t0 r.order_purchase_timestamp hv0 hvr hle
      omega
  refine ⟨key, ?_⟩
  intro e he
  unfold calculate_cohort_analysis at he
  obtain ⟨k, hk, hke⟩ := List.mem_map.mp he
  have hk2 := (mem_insSortB _ _ _).mp hk
  have hk3 := List.mem_dedup.mp hk2
  rw [List.map_map] at hk3
  obtain ⟨r, hr, hkr⟩ := List.mem_map.mp hk3
  obtain ⟨t0, ht0⟩ := customerFirstTs_isSome df r hr
  have hnn := (key r hr t0 ht0).2
  rw [← hke]
  show 0 ≤ k.2
  rw [← hkr]
  exact hnn

/-- C3 witness: the customer first purchasing in January 2023 contributes
offset 2 for the March 2023 order, via the theorem. -/
theorem c3_cohort_period_witness :
    periodNumber dfCohort (mkRow 2 1 7 50 50 ⟨2023, 3, 20⟩) = 2 ∧
    0 ≤ periodNumber dfCohort (mkRow 2 1 7 50 50 ⟨2023, 3, 20⟩) := by
  have hval : ∀ r ∈ dfCohort.rows, validTs r.order_purchase_timestamp := by decide
  have hmem : (mkRow 2 1 7 50 50 ⟨2023, 3, 20⟩) ∈ dfCohort.rows := by
    simp [dfCohort, mkDf]
  have ht0 : customerFirstTs dfCohort (mkRow 2 1 7 50 50 ⟨2023, 3, 20⟩).customer_id =
      some ⟨2023, 1, 5⟩ := rfl
  obtain ⟨heq, hnn⟩ :=
    (c3_cohort_period dfCohort hval).1 _ hmem ⟨2023, 1, 5⟩ ht0
  exact ⟨by rw [heq]; norm_num [mkRow], hnn⟩

/-- C1 (amended): with a comparison set, the float growth rates follow
IEEE division — `(current − base)/base` exactly when the baseline is
non-zero; a signed infinity (or `nan` for `0/0`) when the baseline revenue
is zero — while a comparison set with zero distinct orders makes the
integer order-growth division raise `ZeroDivisionError`; no branch emits
an undefined sentinel in place of the infinities or the exception. -/
theorem c1_growth_rates (df comp : DataFrame) :
    (totalOrdersOf comp = 0 →
      calculate_revenue_metrics df (some comp) =
        .error "ZeroDivisionError: division by zero") ∧
    (totalOrdersOf comp ≠ 0 →
      ∃ m, calculate_revenue_metrics df (some comp) = .ok m ∧
        (totalRevenueOf comp ≠ 0 → m.revenue_growth_rate =
          some (.fin ((totalRevenueOf df - totalRevenueOf comp) / totalRevenueOf comp))) ∧
        (totalRevenueOf comp = 0 → 0 < totalRevenueOf df →
          m.revenue_growth_rate = some .pinf) ∧
        (totalRevenueOf comp = 0 → totalRevenueOf df < 0 →
          m.revenue_growth_rate = some .ninf) ∧
        (totalRevenueOf comp = 0 → totalRevenueOf df = 0 →
          m.revenue_growth_rate = some .nan) ∧
        m.order_growth_rate = some (.fin
          (((totalOrdersOf df : ℚ) - (totalOrdersOf comp : ℚ)) /
            (totalOrdersOf comp : ℚ))) ∧
        (∀ a b : ℚ, pfMean (orderSums df) = .fin a → pfMean (orderSums comp) = .fin b →
          b ≠ 0 → m.aov_growth_rate = some (.fin ((a - b) / b)))) := by
  constructor
  · intro h0
    simp only [calculate_revenue_metrics]
    rw [if_pos (show (revenue_metrics_base comp).total_orders = 0 from h0)]
  · intro h0
    refine ⟨_, calculate_revenue_metrics_some df comp h0, ?_, ?_, ?_, ?_, rfl, ?_⟩
    · intro hb
      show some (pfDiv (.fin (totalRevenueOf df - totalRevenueOf comp))
        (.fin (totalRevenueOf comp))) = _
      rw [pfDiv_fin_of_ne _ _ hb]
    · intro hb hlt
      show some (pfDiv (.fin (totalRevenueOf df - totalRevenueOf comp))
        (.fin (totalRevenueOf comp))) = _
      rw [hb]
      simp only [pfDiv]
      rw [if_pos trivial, if_pos (show (0:ℚ) < totalRevenueOf df - 0 by
        rw [sub_zero]; exact hlt)]
    · intro hb hlt
      show some (pfDiv (.fin (totalRevenueOf df - totalRevenueOf comp))
        (.fin (totalRevenueOf comp))) = _
      rw [hb]
      simp only [pfDiv]
      rw [if_pos trivial,
        if_neg (show ¬(0:ℚ) < totalRevenueOf df - 0 by rw [sub_zero]; linarith),
        if_pos (show totalRevenueOf df - 0 < (0:ℚ) by rw [sub_zero]; exact hlt)]
    · intro hb hz
      show some (pfDiv (.fin (totalRevenueOf df - totalRevenueOf comp))
        (.fin (totalRevenueOf comp))) = _
      rw [hb, hz]
      simp only [pfDiv]
      norm_num
    · intro a b ha hb hbne
      show some (pfDiv (pfSub (pfMean (orderSums df)) (pfMean (orderSums comp)))
        (pfMean (orderSums comp))) = _
      rw [ha, hb, pfSub_fin, pfDiv_fin_of_ne _ _ hbne]

/-- C1 witness: against a one-row zero-revenue comparison set the revenue
growth is `+inf` (not a sentinel, not 0, not an exception) and the order
growth is 0. -/
theorem c1_growth_rates_witness :
    ∃ m, calculate_revenue_metrics df1 (some dfZeroRev) = .ok m ∧
      m.revenue_growth_rate = some .pinf ∧
      m.order_growth_rate = some (.fin 0) := by
  obtain ⟨m, hok, hfin, hpinf, hninf, hnan, horder, haov⟩ :=
    (c1_growth_rates df1 dfZeroRev).2 (by decide)
  refine ⟨m, hok, ?_, ?_⟩
  · apply hpinf
    · norm_num [totalRevenueOf, dfZeroRev, mkDf, mkRow]
    · norm_num [totalRevenueOf, df1, mkDf, mkRow]
  · rw [horder]
    norm_num [totalOrdersOf, df1, dfZeroRev, mkDf, mkRow]

/-- C1 counterexample: an empty comparison set has baseline
`total_orders = 0` (and baseline revenue 0), and the growth computation
raises `ZeroDivisionError` — the claim's "explicit undefined sentinel,
never an exception" fails on the code. -/
theorem c1_growth_rates_cex :
    calculate_revenue_metrics df1 (some dfEmpty) =
      .error "ZeroDivisionError: division by zero" := rfl

/-- C6 (amended): the embedded calculators contain no statement writing to
their input frames — their state-passing translations return the inputs
unchanged — with the one exception of `aggregate_by_time_period`, which
overwrites the `period` column of the caller's frame for every recognised
period string (for an unrecognised one it leaves the frame untouched). -/
theorem c6_no_mutation (df : DataFrame) :
    (∀ comparison_df, calculate_revenue_metrics_dfAfter df comparison_df = df) ∧
    (∀ top_n, analyze_product_performance_dfAfter df top_n = df) ∧
    (∀ top_n, analyze_geographic_performance_dfAfter df top_n = df) ∧
    analyze_customer_experience_dfAfter df = df ∧
    calculate_cohort_analysis_dfAfter df = df ∧
    (∀ comparison_df, calculate_business_health_score_dfAfter df comparison_df = df) ∧
    (∀ previous_df, compare_periods_dfAfter df previous_df = (df, previous_df)) ∧
    (∀ p, p ∈ validPeriods → (aggregate_by_time_period df p).2 = writePeriod df p) ∧
    (∀ p, p ∉ validPeriods → (aggregate_by_time_period df p).2 = df) := by
  refine ⟨fun _ => rfl, fun _ => rfl, fun _ => rfl, rfl, rfl, fun _ => rfl,
    fun _ => rfl, ?_, ?_⟩
  · intro p hp
    simp only [aggregate_by_time_period]
    rw [if_pos hp, if_pos (show (writePeriod df p).hasPeriodCol = true from rfl)]
  · intro p hp
    simp only [aggregate_by_time_period]
    rw [if_neg hp]
    by_cases hc : df.hasPeriodCol = true
    · rw [if_pos hc]
    · rw [if_neg hc]

/-- C6 witness: the mutation clause of the theorem at a concrete frame and
the `month` period. -/
theorem c6_no_mutation_witness :
    (aggregate_by_time_period df6 "month").2 = writePeriod df6 "month" :=
  (c6_no_mutation df6).2.2.2.2.2.2.2.1 "month" (by decide)

/-- C6 counterexample: `aggregate_by_time_period` does NOT leave its input
unchanged — the frame the caller passed in acquires a `period` column. -/
theorem c6_no_mutation_cex : (aggregate_by_time_period df6 "month").2 ≠ df6 := by
  intro h
  have hcol : (aggregate_by_time_period df6 "month").2.hasPeriodCol =
      df6.hasPeriodCol := by rw [h]
  rw [show (aggregate_by_time_period df6 "month").2.hasPeriodCol = true from rfl,
    show df6.hasPeriodCol = false from rfl] at hcol
  cases hcol

/-- C7 (the code bug): with `delivery_days` and `delivery_category` present
(and delivery data non-empty) but `review_score` absent, the
delivery-satisfaction aggregation names the missing `review_score` column
and `analyze_customer_experience` raises `KeyError` instead of returning
with the review-dependent keys omitted. -/
theorem c7_cx_keyerror :
    analyze_customer_experience dfCxBad = .error "KeyError: review_score" := rfl

/-- C8: every metric present in both periods (the default three in
particular) yields one comparison row holding the two values, their
difference, and a percent change equal to `(current − previous)/previous`
expressed in percent (×100) whenever the previous value is non-zero; a
zero previous value yields `np.nan`, the explicit undefined sentinel. -/
theorem c8_compare_periods (current_df previous_df : DataFrame) (name : String)
    (hname : name ∈ defaultCompareMetrics) (c p : PFloat)
    (hc : lookupMetric (revenue_metrics_base current_df) name = some c)
    (hp : lookupMetric (revenue_metrics_base previous_df) name = some p) :
    ∃ row ∈ compare_periods current_df previous_df defaultCompareMetrics,
      row.metric = name ∧ row.current_period = c ∧ row.previous_period = p ∧
      row.absolute_change = pfSub c p ∧
      (∀ qc qp : ℚ, c = .fin qc → p = .fin qp → qp ≠ 0 →
        row.percent_change = .fin ((qc - qp) / qp * 100)) ∧
      (p = .fin 0 → row.percent_change = .nan) := by
  refine ⟨⟨name, c, p, pfSub c p,
      if pfNe p (.fin 0) then pfMul (pfDiv (pfSub c p) p) (.fin 100) else .nan⟩,
    ?_, rfl, rfl, rfl, rfl, ?_, ?_⟩
  · simp only [compare_periods]
    apply List.mem_filterMap.mpr
    refine ⟨name, hname, ?_⟩
    rw [hc, hp]
  · intro qc qp hqc hqp hne
    subst hqc
    subst hqp
    show (if pfNe (.fin qp) (.fin 0) then
      pfMul (pfDiv (pfSub (.fin qc) (.fin qp)) (.fin qp)) (.fin 100) else .nan) = _
    rw [if_pos (show pfNe (.fin qp) (.fin 0) = true by simp [pfNe, pfBeq, hne]),
      pfSub_fin, pfDiv_fin_of_ne _ _ hne, pfMul_fin]
  · intro hp0
    subst hp0
    show (if pfNe (.fin 0) (.fin 0) then
      pfMul (pfDiv (pfSub c (.fin 0)) (.fin 0)) (.fin 100) else .nan) = _
    rw [if_neg (by simp [pfNe, pfBeq])]

/-- C8 witness: `total_revenue` compared between a 120-revenue and a
100-revenue period — percent change 20. -/
theorem c8_compare_periods_witness :
    ∃ row ∈ compare_periods dfCur dfPrev defaultCompareMetrics,
      row.metric = "total_revenue" ∧ row.current_period = .fin 120 ∧
      row.previous_period = .fin 100 ∧
      row.absolute_change = pfSub (.fin 120) (.fin 100) ∧
      (∀ qc qp : ℚ, (.fin 120 : PFloat) = .fin qc → (.fin 100 : PFloat) = .fin qp →
        qp ≠ 0 → row.percent_change = .fin ((qc - qp) / qp * 100)) ∧
      ((.fin 100 : PFloat) = .fin 0 → row.percent_change = .nan) := by
  apply c8_compare_periods dfCur dfPrev "total_revenue" (by decide) (.fin 120) (.fin 100)
  · show some (PFloat.fin (totalRevenueOf dfCur)) = some (PFloat.fin 120)
    norm_num [totalRevenueOf, dfCur, mkDf, mkRow]
  · show some (PFloat.fin (totalRevenueOf dfPrev)) = some (PFloat.fin 100)
    norm_num [totalRevenueOf, dfPrev, mkDf, mkRow]

/-- The ordering C9 claims: strictly greater revenue first, exact revenue
ties by ascending category name. -/
def c9ClaimOrder (a b : CatRow) : Prop :=
  b.total_revenue < a.total_revenue ∨
    (a.total_revenue = b.total_revenue ∧ a.category < b.category)

instance : DecidableRel c9ClaimOrder := fun a b => by
  unfold c9ClaimOrder
  exact inferInstance

/-- C9 (amended): `category_performance` lists the top-N categories in
non-increasing total-revenue order for every frame and every `top_n`; on
exact revenue ties the order is NOT ascending by category name — the
descending sort reverses the ascending groupby order (counterexample
below). -/
theorem c9_category_order (df : DataFrame) (top_n : ℕ) :
    (category_performance df top_n).Pairwise
      (fun a b => b.total_revenue ≤ a.total_revenue) := by
  unfold category_performance sortByRevenueDesc
  apply List.Pairwise.sublist (List.take_sublist _ _)
  rw [List.pairwise_reverse]
  have hp := pairwise_insSortB
    (fun a b : CatRow => decide (a.total_revenue ≤ b.total_revenue))
    (fun a b => by
      rcases le_total a.total_revenue b.total_revenue with h | h
      · exact Or.inl (decide_eq_true h)
      · exact Or.inr (decide_eq_true h))
    (fun a b c hab hbc =>
      decide_eq_true (le_trans (of_decide_eq_true hab) (of_decide_eq_true hbc)))
    (category_revenue df)
  exact hp.imp (fun h => of_decide_eq_true h)

/-- C9 counterexample: two categories with equal total revenue 10.
`groupby` enumerates them name-ascending ("a" then "b"); the descending
revenue sort reverses the tie, so the view lists "b" before "a" — the
claimed ascending-name tie-break fails. -/
theorem c9_category_order_cex :
    ¬ (category_performance dfTie 10).Pairwise c9ClaimOrder := by
  have hkeys : categoryKeys dfTie = ["a", "b"] := by
    unfold categoryKeys
    rw [show dfTie.rows.filterMap Row.product_category_name = ["a", "b"] from by
      simp [dfTie, mkDf, mkRow]]
    rw [List.dedup_cons_of_not_mem (by decide), List.dedup_cons_of_not_mem (by decide),
      List.dedup_nil]
    simp only [insSortB, insertB]
    rw [if_pos (by simp; decide)]
  have hfa : dfTie.rows.filter (fun r => r.product_category_name = some "a") =
      [{ mkRow 1 1 1 10 10 ⟨2023, 1, 5⟩ with product_category_name := some "a" }] := by
    simp only [dfTie, mkDf, List.filter_cons, List.filter_nil]
    rw [if_pos (by decide), if_neg (by decide)]
  have hfb : dfTie.rows.filter (fun r => r.product_category_name = some "b") =
      [{ mkRow 2 1 2 10 10 ⟨2023, 1, 6⟩ with product_category_name := some "b" }] := by
    simp only [dfTie, mkDf, List.filter_cons, List.filter_nil]
    rw [if_neg (by decide), if_pos (by decide)]
  have hcatrev : category_revenue dfTie =
      [⟨"a", 10, 1, 1, .fin 10⟩, ⟨"b", 10, 1, 1, .fin 10⟩] := by
    simp only [category_revenue]
    rw [hkeys]
    simp only [List.map_cons, List.map_nil]
    rw [hfa, hfb]
    norm_num [mkRow, pfMean]
  have hperf : category_performance dfTie 10 =
      [⟨"b", 10, 1, 1, .fin 10⟩, ⟨"a", 10, 1, 1, .fin 10⟩] := by
    unfold category_performance sortByRevenueDesc
    rw [hcatrev]
    simp only [insSortB, insertB]
    rw [if_pos (by decide)]
    rfl
  intro h
  rw [hperf] at h
  have hrel := (List.pairwise_cons.mp h).1 ⟨"a", 10, 1, 1, .fin 10⟩
    (List.mem_cons_self _ _)
  rcases hrel with hlt | ⟨heq, hname⟩
  · have : ((10 : ℚ) < 10) := hlt
    norm_num at this
  · have : ¬ (("b" : String) < "a") := by
      simp [String.lt_iff_toList_lt]
      decide
    exact this hname

/-- C10: every state group of `analyze_geographic_performance` contains at
least one row and hence at least one customer, so `revenue_per_customer`
is always the finite quotient `total_revenue / unique_customers` — the
zero-denominator case is unreachable. -/
theorem c10_revenue_per_customer (df : DataFrame) (top_n : ℕ) :
    ∀ s ∈ (analyze_geographic_performance df top_n).state_performance,
      1 ≤ s.unique_customers ∧
      s.revenue_per_customer = .fin (s.total_revenue / (s.unique_customers : ℚ)) := by
  intro s hs
  have hs1 : s ∈ sortStatesByRevenueDesc (stateAgg df) := List.take_subset _ _ hs
  have hs2 : s ∈ stateAgg df := by
    unfold sortStatesByRevenueDesc at hs1
    rw [List.mem_reverse] at hs1
    exact (mem_insSortB _ _ _).mp hs1
  unfold stateAgg at hs2
  obtain ⟨st, hst, hrec⟩ := List.mem_map.mp hs2
  have hstrows : ∃ r ∈ df.rows, r.customer_state = st := by
    have h1 := (mem_insSortB _ _ _).mp hst
    have h2 := List.mem_dedup.mp h1
    obtain ⟨r, hr, hrs⟩ := List.mem_map.mp h2
    exact ⟨r, hr, hrs⟩
  obtain ⟨r, hr, hrs⟩ := hstrows
  have hmem : r ∈ df.rows.filter (fun x => x.customer_state = st) :=
    List.mem_filter.mpr ⟨hr, by simp [hrs]⟩
  have hlen : 1 ≤ ((df.rows.filter (fun x => x.customer_state = st)).map
      Row.customer_id).dedup.length := by
    rw [Nat.one_le_iff_ne_zero, ne_eq, List.length_eq_zero, List.dedup_eq_nil,
      List.map_eq_nil_iff]
    intro hnil
    rw [hnil] at hmem
    cases hmem
  constructor
  · rw [← hrec]
    exact hlen
  · rw [← hrec]
    show pfDiv (.fin _) (.fin _) = _
    rw [pfDiv_fin_of_ne _ _ (by
      have : (0 : ℚ) < (((df.rows.filter (fun x => x.customer_state = st)).map
          Row.customer_id).dedup.length : ℚ) := by exact_mod_cast hlen
      linarith)]

/-- C10 witness: the single-state frame, whose one state row has one
customer and `revenue_per_customer = 100 / 1`. -/
theorem c10_revenue_per_customer_witness :
    1 ≤ geoRow0.unique_customers ∧
    geoRow0.revenue_per_customer = .fin (geoRow0.total_revenue / (geoRow0.unique_customers : ℚ)) := by
  have hperf : (analyze_geographic_performance dfGeo 10).state_performance = [geoRow0] := by
    unfold analyze_geographic_performance sortStatesByRevenueDesc stateAgg stateKeys
    rw [show (dfGeo.rows.map Row.customer_state).dedup = ["SP"] from by
      simp [dfGeo, mkDf, mkRow, List.dedup_cons_of_not_mem]]
    simp only [insSortB, insertB, List.map_cons, List.map_nil, List.reverse_cons,
      List.reverse_nil, List.nil_append, List.take_succ_cons, List.take_nil]
    norm_num [dfGeo, mkDf, mkRow, geoRow0, pfMean, pfDiv]
  apply c10_revenue_per_customer dfGeo 10
  rw [hperf]
  exact List.mem_cons_self _ _
